import Mathlib

/-!
Verification of the AI_DND chat client's state-reconciliation engine.

This file shallowly embeds the parts of the TypeScript source that the
frozen claims are about:

* the domain enumerations and records from `types.ts` (StatName, ItemType,
  Item, dice-roll request/report records),
* the constants from `constants.ts` (XP table, base HP gain, base stat value),
* the command-extraction pipeline `_updateStateAndParseCommands` of
  `ChatInterface.tsx` (JavaScript regex matching over the turn text, modelled
  on lists of characters, plus JSON payload parsing modelled by an executable
  JSON parser; numbers are modelled as integers),
* the inventory merge and consume logic, the level-up handler
  `handleLevelUpComplete`, the dice suppression logic of
  `handleStreamAndProcessInternal` / `handleDiceRollComplete`, the autosave
  gate `conditionsForAutosave`, and `DiceRoller.performRoll`.

Texts are `List Char`.  JavaScript `Math.random` values are modelled as
rationals in `[0, 1)` supplied as an input sequence.  `Date.now()` is an
explicit `now` parameter (it only feeds generated item ids).
-/

namespace AiDnd

/-- Ability score names, from the `StatName` enum in `types.ts`. -/
inductive StatName where
  | Strength | Dexterity | Constitution | Intelligence | Wisdom | Charisma
  deriving DecidableEq, Repr

/-- The string value of each `StatName` enum member. -/
def statNameStr : StatName → List Char
  | .Strength => "Strength".toList
  | .Dexterity => "Dexterity".toList
  | .Constitution => "Constitution".toList
  | .Intelligence => "Intelligence".toList
  | .Wisdom => "Wisdom".toList
  | .Charisma => "Charisma".toList

/-- `Object.values(StatName)`. -/
def statNameValues : List StatName :=
  [.Strength, .Dexterity, .Constitution, .Intelligence, .Wisdom, .Charisma]

/-- Decode a string to a `StatName`; mirrors `Object.values(StatName).includes(s)`
together with the cast `s as StatName`. -/
def statNameOfStr (s : List Char) : Option StatName :=
  statNameValues.find? (fun t => statNameStr t = s)

/-- Item categories, from the `ItemType` enum in `types.ts`. -/
inductive ItemType where
  | weapon | armor | potion | quest | misc | food | key | book | currency
  deriving DecidableEq, Repr

/-- The string value of each `ItemType` enum member. -/
def itemTypeStr : ItemType → List Char
  | .weapon => "weapon".toList
  | .armor => "armor".toList
  | .potion => "potion".toList
  | .quest => "quest".toList
  | .misc => "misc".toList
  | .food => "food".toList
  | .key => "key".toList
  | .book => "book".toList
  | .currency => "currency".toList

/-- `Object.values(ItemType)`. -/
def itemTypeValues : List ItemType :=
  [.weapon, .armor, .potion, .quest, .misc, .food, .key, .book, .currency]

/-- Decode a string to an `ItemType`; mirrors `Object.values(ItemType).includes(t)`. -/
def itemTypeOfStr (s : List Char) : Option ItemType :=
  itemTypeValues.find? (fun t => itemTypeStr t = s)

/-- Inventory item record, from `interface Item` in `types.ts`
(the optional `icon` field carries no game state and is omitted). -/
structure Item where
  id : List Char
  name : List Char
  description : List Char
  type : ItemType
  quantity : Int
  deriving DecidableEq, Repr

/-- Partial ability-score map, `type Stats = { [key in StatName]?: number }`. -/
def Stats : Type := StatName → Option Int

/-- A dice-roll request, from `interface DiceRollRequest` in `types.ts`,
after the validation in `_updateStateAndParseCommands` has established that
all entries of `statsToRoll` are `StatName` values. -/
structure DiceRollRequest where
  id : List Char
  statsToRoll : List StatName
  description : List Char
  deriving DecidableEq, Repr

/-- One per-ability roll outcome, from `interface SingleStatRollResult`. -/
structure SingleStatRollResult where
  statName : StatName
  diceValue : Int
  modifier : Int
  totalValue : Int
  deriving DecidableEq, Repr

/-- The full roll report, from `interface DiceRollReport`. -/
structure DiceRollReport where
  rollId : List Char
  rollDescription : List Char
  results : List SingleStatRollResult
  deriving DecidableEq, Repr

/-- Game phases, from `enum GamePhase` in `types.ts`. -/
inductive GamePhase where
  | characterCreation | gameplay | error | loading | loadPrompt
  deriving DecidableEq, Repr

/-! ### Constants, from `constants.ts` -/

/-- `BASE_STAT_VALUE = 10`. -/
def BASE_STAT_VALUE : Int := 10

/-- `XP_THRESHOLDS`: total XP needed to reach each level, index = level - 1. -/
def XP_THRESHOLDS : List Int := [0, 100, 300, 600, 1000, 1500, 2100, 2800, 3600, 4500]

/-- `MAX_LEVEL = XP_THRESHOLDS.length`. -/
def MAX_LEVEL : Nat := XP_THRESHOLDS.length

/-- `BASE_HP_GAIN_PER_LEVEL = 8`. -/
def BASE_HP_GAIN_PER_LEVEL : Int := 8

/-! ### Inventory operations

Extracted verbatim from the `AWARD_ITEM` and `CONSUME_ITEM` branches of
`_updateStateAndParseCommands` (ChatInterface.tsx lines 305-359). -/

/-- The fixed stackable category set:
`const stackableTypes: ItemType[] = [Potion, Misc, Food, Key, Currency]`. -/
def stackableTypes : List ItemType := [.potion, .misc, .food, .key, .currency]

/-- Decimal digit characters of a natural number. -/
def natToChars (n : Nat) : List Char := (Nat.toDigits 10 n)

/-- JavaScript `String(n)` for an integer. -/
def intToChars (n : Int) : List Char :=
  if n < 0 then '-' :: natToChars n.natAbs else natToChars n.natAbs

/-- The freshly generated entry `{ id: name-Date.now(), name, description, type, quantity }`. -/
def newAwardedItem (now : Int) (nm ds : List Char) (ty : ItemType) (q : Int) : Item :=
  { id := nm ++ '-' :: intToChars now, name := nm, description := ds, type := ty, quantity := q }

/-- The `AWARD_ITEM` inventory merge (ChatInterface.tsx lines 313-327):
stackable categories merge by name *and* category into the first matching
entry; other categories always push a new entry. -/
def applyAwardItem (now : Int) (inv : List Item) (nm ds : List Char) (ty : ItemType)
    (q : Int) : List Item :=
  let existingItemIndex : Option Nat :=
    if ty ∈ stackableTypes then
      inv.findIdx? (fun it => it.name = nm && it.type = ty)
    else none
  match existingItemIndex with
  | some i =>
      match inv.get? i with
      | some it => inv.set i { it with quantity := it.quantity + q }
      | none => inv
  | none => inv ++ [newAwardedItem now nm ds ty q]

/-- The `CONSUME_ITEM` inventory update (ChatInterface.tsx lines 342-353):
matches by name only; over-consumption logs a warning and leaves the
inventory unchanged; exact consumption removes the entry. -/
def applyConsumeItem (inv : List Item) (nm : List Char) (q : Int) : List Item :=
  match inv.findIdx? (fun it => it.name = nm) with
  | none => inv
  | some i =>
      match inv.get? i with
      | none => inv
      | some it =>
          if it.quantity > q then inv.set i { it with quantity := it.quantity - q }
          else if it.quantity = q then inv.eraseIdx i
          else inv

/-! ### Level-up handler, from `handleLevelUpComplete` (ChatInterface.tsx 944-1055) -/

/-- A learned ability, from `interface Skill`. -/
structure Skill where
  name : List Char
  description : List Char
  deriving DecidableEq, Repr

/-- The payload sent by the level-up modal, from `interface LevelUpPayload`. -/
structure LevelUpPayload where
  chosenStatIncrease : Option StatName
  chosenAbility : Option Skill

/-- The slice of `ChatInterface` component state that `handleLevelUpComplete`
reads and writes.  `xpToNextLevel = none` models the JavaScript `Infinity`
threshold used past the last table entry. -/
structure LevelState where
  level : Nat
  stats : Stats
  skills : List Skill
  hp : Int
  maxHp : Int
  currentXP : Int
  xpToNextLevel : Option Int
  isLevelUpModalOpen : Bool

/-- JavaScript `x || d` for a number `x`: `0` is falsy. -/
def jsOrNum (x d : Int) : Int := if x = 0 then d else x

/-- `newStats[chosen] = (newStats[chosen] || BASE_STAT_VALUE) + 1`, guarded by
`newStats[chosen] !== undefined` (an absent score is not increased). -/
def bumpStat (st : Stats) (chosen : Option StatName) : Stats :=
  match chosen with
  | none => st
  | some s =>
      match st s with
      | none => st
      | some v => fun t => if t = s then some (jsOrNum v BASE_STAT_VALUE + 1) else st t

/-- `xp >= threshold` with `none` standing for `Infinity` (always false). -/
def xpMeets (xp : Int) (threshold : Option Int) : Bool :=
  match threshold with
  | some t => xp ≥ t
  | none => false

/-- `currentXP - currentXpToNextLevel`, clamped below at `0` afterwards;
subtracting the `Infinity` threshold gives `-Infinity`, which clamps to `0`. -/
def xpAfterLevelUp (xp : Int) (threshold : Option Int) : Int :=
  match threshold with
  | some t => if xp - t < 0 then 0 else xp - t
  | none => 0

/-- `handleLevelUpComplete` (ChatInterface.tsx lines 944-1055), restricted to
the character/UI state it updates.  At max level it only closes the modal.
Otherwise: the chosen stat gains +1, the chosen ability is appended, max HP
grows by the base gain plus the post-increase Constitution modifier, HP
resets to the new maximum, XP debits the cleared threshold (floored at 0),
the next threshold is read from the XP table (`Infinity` past the end), and
the modal re-opens when the leftover XP already meets the new threshold. -/
def handleLevelUpComplete (st : LevelState) (payload : LevelUpPayload) : LevelState :=
  if st.level ≥ MAX_LEVEL then { st with isLevelUpModalOpen := false }
  else
    let newLevel := st.level + 1
    let newStats := bumpStat st.stats payload.chosenStatIncrease
    let newSkills := match payload.chosenAbility with
      | some ab => st.skills ++ [ab]
      | none => st.skills
    let newCon := jsOrNum ((newStats StatName.Constitution).getD 0) BASE_STAT_VALUE
    let newConModifier := Int.fdiv (newCon - 10) 2
    let newMaxHpVal := st.maxHp + BASE_HP_GAIN_PER_LEVEL + newConModifier
    let newCurrentXPVal := xpAfterLevelUp st.currentXP st.xpToNextLevel
    let newThreshold : Option Int :=
      if newLevel < MAX_LEVEL then some (XP_THRESHOLDS.getD newLevel 0) else none
    let reopen := xpMeets newCurrentXPVal newThreshold && decide (newLevel < MAX_LEVEL)
    { level := newLevel
      stats := newStats
      skills := newSkills
      hp := newMaxHpVal
      maxHp := newMaxHpVal
      currentXP := newCurrentXPVal
      xpToNextLevel := newThreshold
      isLevelUpModalOpen := reopen }

/-- The `disabled` expression of the chat input and send button
(ChatInterface.tsx lines 1209 and 1214): input is disabled while the AI is
typing, no API key is present, the dice interface is active, a message is
regenerating, or the level-up modal is open. -/
def sendDisabled (isAiTyping apiKeyAvailable isDiceInterfaceActive anyRegenerating
    isLevelUpModalOpen : Bool) : Bool :=
  isAiTyping || !apiKeyAvailable || isDiceInterfaceActive || anyRegenerating
    || isLevelUpModalOpen

/-! ### Dice roller, from `DiceRoller.performRoll` (DiceRoller.tsx lines 17-55) -/

/-- `Math.floor((statValue - 10) / 2)`. -/
def abilityModifier (statValue : Int) : Int := Int.fdiv (statValue - 10) 2

/-- `1 + Math.floor(Math.random() * 20)`, with the random draw given as a
rational in `[0, 1)`. -/
def rollD20 (r : ℚ) : Int := 1 + ⌊r * 20⌋

/-- `DiceRoller.performRoll`: one result per requested ability, in order;
`statValue = characterStats[statName] ?? BASE_STAT_VALUE`;
report carries the original request id and description. -/
def performRoll (request : DiceRollRequest) (characterStats : Stats)
    (randSeq : Nat → ℚ) : DiceRollReport :=
  { rollId := request.id
    rollDescription := request.description
    results := request.statsToRoll.enum.map (fun p =>
      let statValue := (characterStats p.2).getD BASE_STAT_VALUE
      let modifier := abilityModifier statValue
      let diceValue := rollD20 (randSeq p.1)
      { statName := p.2, diceValue := diceValue, modifier := modifier
        totalValue := diceValue + modifier }) }

/-! ### Dice suppression, from `handleDiceRollComplete` (ChatInterface.tsx
906-911) and the activation block of `handleStreamAndProcessInternal`
(751-763) -/

/-- The dice-workflow slice of `ChatInterface` state. -/
structure DiceFlowState where
  activeDiceRollRequest : Option DiceRollRequest
  isDiceInterfaceActive : Bool
  lastResolvedRollId : Option (List Char)
  deriving DecidableEq, Repr

/-- `handleDiceRollComplete` (state part): deactivate the dice interface and
remember the resolved roll id. -/
def handleDiceRollComplete (st : DiceFlowState) (report : DiceRollReport) : DiceFlowState :=
  { st with
    activeDiceRollRequest := none
    isDiceInterfaceActive := false
    lastResolvedRollId := some report.rollId }

/-- The activation block of `handleStreamAndProcessInternal` (lines 751-763):
a freshly parsed dice-roll request whose id equals the most recently resolved
roll id is ignored; otherwise it is activated and the resolved id cleared. -/
def applyNewDiceRollRequest (st : DiceFlowState) (newRollReq : Option DiceRollRequest) :
    DiceFlowState :=
  match newRollReq with
  | none => st
  | some r =>
      if st.lastResolvedRollId = some r.id then st
      else
        { activeDiceRollRequest := some r
          isDiceInterfaceActive := true
          lastResolvedRollId := none }

/-! ### Autosave gate, from `handleStreamAndProcessInternal` (lines 765-769) -/

/-- `conditionsForAutosave`: the snapshot is persisted only during gameplay,
with an API key, when no dice roll is pending (or the pending roll was
resolved by this very turn), and no level-up modal is open. -/
def conditionsForAutosave (gamePhase : GamePhase) (apiKeyAvailable isDiceInterfaceActive
    isPostDiceRollResponse isLevelUpModalOpen : Bool) : Bool :=
  decide (gamePhase = GamePhase.gameplay) && apiKeyAvailable
    && (!isDiceInterfaceActive || isPostDiceRollResponse) && !isLevelUpModalOpen

/-! ### Character lists, JavaScript string trimming, and regex matching

`String.prototype.match` with a non-global regex returns the first match;
`String.prototype.replace` with a non-global regex removes the first match.
All command regexes have the shape `SIGIL::({.*?})` with the `s` flag, so a
match starts at the first position where the literal sigil is followed by
`{` with a later `}`, and the lazy group ends at the first `}` after that
`{`.  The focus regex additionally allows the literal alternative `null`. -/

/-- The whitespace characters relevant to the texts in this development
(JavaScript `trim` handles full Unicode whitespace; the turn texts modelled
here only involve these). -/
def isWS (c : Char) : Bool := c = ' ' || c = '\n' || c = '\t' || c = '\r'

/-- Drop leading whitespace. -/
def trimL (s : List Char) : List Char := s.dropWhile isWS

/-- JavaScript `s.trim()`. -/
def jsTrim (s : List Char) : List Char := trimL (trimL s.reverse).reverse

/-- Literal prefix test on character lists. -/
def pfx : List Char → List Char → Bool
  | [], _ => true
  | _ :: _, [] => false
  | a :: as, b :: bs => if a = b then pfx as bs else false

/-- Does `pat` occur as a contiguous substring? -/
def occursB (pat : List Char) : List Char → Bool
  | [] => pfx pat []
  | c :: cs => pfx pat (c :: cs) || occursB pat cs

/-- The lazy body match `.*?}`: consume up to and excluding the first `}`,
returning the body and the remainder after the `}`. -/
def takeToBrace : List Char → Option (List Char × List Char)
  | [] => none
  | c :: cs =>
      if c = '}' then some ([], cs)
      else
        match takeToBrace cs with
        | some (p, r) => some (c :: p, r)
        | none => none

/-- Regex search: try a match at every position, left to right, returning
the text before the match, the match payload, and the text after. -/
def scanFirst (tryAt : List Char → Option (α × List Char)) :
    List Char → Option (List Char × α × List Char)
  | [] => none
  | c :: cs =>
      match tryAt (c :: cs) with
      | some (p, r) => some ([], p, r)
      | none =>
          match scanFirst tryAt cs with
          | some (b, p, r) => some (c :: b, p, r)
          | none => none

/-- Try `SIGIL::({.*?})` at the current position: the sigil must be followed
by `{`, and the payload runs to the first `}`.  The returned payload excludes
the braces. -/
def tryCmd (sig : List Char) (s : List Char) : Option (List Char × List Char) :=
  if pfx (sig ++ ['{']) s then takeToBrace (s.drop (sig.length + 1))
  else none

def nullChars : List Char := "null".toList

/-- Try `FOCUS_PANEL_UPDATE::({.*?}|null)` at the current position.
`none` payload encodes the literal `null` alternative. -/
def tryFocus (sig : List Char) (s : List Char) : Option (Option (List Char) × List Char) :=
  if pfx sig s then
    let rest := s.drop sig.length
    match rest with
    | '{' :: rs =>
        match takeToBrace rs with
        | some (p, r) => some (some p, r)
        | none => none
    | _ => if pfx nullChars rest then some (none, rest.drop nullChars.length) else none
  else none

def undefinedChars : List Char := "undefined".toList

/-- `cleanPotentialUndefined` (ChatInterface.tsx lines 63-69): strip one
trailing literal `undefined`, then trim. -/
def cleanPotentialUndefined (t : List Char) : List Char :=
  if pfx undefinedChars.reverse t.reverse then
    jsTrim (t.take (t.length - undefinedChars.length))
  else jsTrim t

/-! ### JSON values and an executable JSON parser

Models `JSON.parse` on the small flat payloads the command protocol uses.
Restrictions of the model: numbers are integers (fraction or exponent parts
are rejected), and `\uXXXX` string escapes are not supported.  Duplicate
object keys follow JavaScript semantics: first-occurrence order, last value
wins. -/

inductive Json where
  | null
  | bool (b : Bool)
  | num (n : Int)
  | str (s : List Char)
  | arr (elems : List Json)
  | obj (fields : List (List Char × Json))
  deriving Repr

/-- Is the value the JSON `null`? -/
def isNullJson : Json → Bool
  | .null => true
  | _ => false

/-- Assign a key in a field list: replace in place if present, append if not
(JavaScript object assignment semantics). -/
def setFieldVal : List (List Char × Json) → List Char → Json → List (List Char × Json)
  | [], k, v => [(k, v)]
  | (k0, v0) :: fs, k, v =>
      if k0 = k then (k0, v) :: fs else (k0, v0) :: setFieldVal fs k v

/-- Field lookup (field lists built by the parser have unique keys). -/
def getField (fs : List (List Char × Json)) (k : List Char) : Option Json :=
  (fs.find? (fun kv => kv.1 = k)).map (fun kv => kv.2)

/-- Remove a field. -/
def removeField (fs : List (List Char × Json)) (k : List Char) : List (List Char × Json) :=
  fs.eraseP (fun kv => kv.1 = k)

def skipWS (s : List Char) : List Char := s.dropWhile isWS

def isDigit (c : Char) : Bool := '0' ≤ c && c ≤ '9'

/-- Consume leading decimal digits into an accumulator. -/
def digitsToNat (acc : Nat) : List Char → Nat × List Char
  | [] => (acc, [])
  | c :: cs =>
      if isDigit c then digitsToNat (acc * 10 + (c.toNat - '0'.toNat)) cs
      else (acc, c :: cs)

/-- A number token would continue with a fraction or exponent part
(rejected by this integer-only model). -/
def badNumTail : List Char → Bool
  | c :: _ => c = '.' || c = 'e' || c = 'E'
  | [] => false

/-- Parse a JSON integer literal. -/
def parseNum : List Char → Option (Int × List Char)
  | [] => none
  | '-' :: cs =>
      match cs with
      | c :: _ =>
          if isDigit c then
            let p := digitsToNat 0 cs
            if badNumTail p.2 then none else some (-(p.1 : Int), p.2)
          else none
      | [] => none
  | c :: cs =>
      if isDigit c then
        let p := digitsToNat 0 (c :: cs)
        if badNumTail p.2 then none else some ((p.1 : Int), p.2)
      else none

/-- JSON string escape characters (without `\uXXXX`). -/
def unescape (c : Char) : Option Char :=
  if c = '"' then some '"'
  else if c = '\\' then some '\\'
  else if c = '/' then some '/'
  else if c = 'n' then some '\n'
  else if c = 't' then some '\t'
  else if c = 'r' then some '\r'
  else if c = 'b' then some (Char.ofNat 8)
  else if c = 'f' then some (Char.ofNat 12)
  else none

/-- Parse a JSON string body after the opening quote. -/
def parseStrBody : List Char → Option (List Char × List Char)
  | [] => none
  | '"' :: rest => some ([], rest)
  | '\\' :: e :: rest =>
      match unescape e with
      | some ch =>
          match parseStrBody rest with
          | some (s, r) => some (ch :: s, r)
          | none => none
      | none => none
  | ['\\'] => none
  | c :: rest =>
      match parseStrBody rest with
      | some (s, r) => some (c :: s, r)
      | none => none

mutual

/-- Parse one JSON value (fueled; the top-level entry point supplies ample
fuel, and the fuel never runs out on inputs it is actually applied to). -/
def parseVal : Nat → List Char → Option (Json × List Char)
  | 0, _ => none
  | fuel + 1, s =>
      match skipWS s with
      | [] => none
      | c :: cs =>
          if c = '"' then
            match parseStrBody cs with
            | some (t, r) => some (.str t, r)
            | none => none
          else if c = '[' then
            match skipWS cs with
            | ']' :: r => some (.arr [], r)
            | rest =>
                match parseArrItems fuel rest with
                | some (js, r) => some (.arr js, r)
                | none => none
          else if c = '{' then
            match skipWS cs with
            | '}' :: r => some (.obj [], r)
            | rest =>
                match parseObjItems fuel rest with
                | some (fs, r) => some (.obj fs, r)
                | none => none
          else if pfx nullChars (c :: cs) then some (.null, (c :: cs).drop 4)
          else if pfx "true".toList (c :: cs) then some (.bool true, (c :: cs).drop 4)
          else if pfx "false".toList (c :: cs) then some (.bool false, (c :: cs).drop 5)
          else
            match parseNum (c :: cs) with
            | some (n, r) => some (.num n, r)
            | none => none

/-- Parse the comma-separated elements of a non-empty array, including the
closing `]`. -/
def parseArrItems : Nat → List Char → Option (List Json × List Char)
  | 0, _ => none
  | fuel + 1, s =>
      match parseVal fuel s with
      | some (j, r) =>
          match skipWS r with
          | ',' :: more =>
              match parseArrItems fuel more with
              | some (js, r2) => some (j :: js, r2)
              | none => none
          | ']' :: r2 => some ([j], r2)
          | _ => none
      | none => none

/-- Parse the members of a non-empty object, including the closing `}`.
Duplicate keys: last value wins, first occurrence keeps its position. -/
def parseObjItems : Nat → List Char → Option (List (List Char × Json) × List Char)
  | 0, _ => none
  | fuel + 1, s =>
      match skipWS s with
      | '"' :: cs =>
          match parseStrBody cs with
          | some (k, r) =>
              match skipWS r with
              | ':' :: r2 =>
                  match parseVal fuel r2 with
                  | some (v, r3) =>
                      match skipWS r3 with
                      | ',' :: more =>
                          match parseObjItems fuel more with
                          | some (fs, r4) =>
                              match fs.find? (fun kv => kv.1 = k) with
                              | some kv => some ((k, kv.2) :: removeField fs k, r4)
                              | none => some ((k, v) :: fs, r4)
                          | none => none
                      | '}' :: r4 => some ([(k, v)], r4)
                      | _ => none
                  | none => none
              | _ => none
          | none => none
      | _ => none

end

/-- `JSON.parse` (restricted as documented above): the whole input must be
one value, possibly surrounded by whitespace. -/
def parseJson (s : List Char) : Option Json :=
  match parseVal (2 * s.length + 2) s with
  | some (j, r) => if skipWS r = [] then some j else none
  | none => none

/-! ### `String(v)` and `parseInt(v, 10)`, used by the focus-panel coercion -/

mutual

/-- JavaScript `String(v)` on a JSON value. -/
def jsToString : Json → List Char
  | .null => nullChars
  | .bool true => "true".toList
  | .bool false => "false".toList
  | .num n => intToChars n
  | .str s => s
  | .arr xs => jsToStringArr xs
  | .obj _ => "[object Object]".toList

/-- `Array.prototype.toString`: elements joined by commas, with `null`
rendered empty. -/
def jsToStringArr : List Json → List Char
  | [] => []
  | [x] => if isNullJson x then [] else jsToString x
  | x :: xs => (if isNullJson x then [] else jsToString x) ++ ',' :: jsToStringArr xs

end

/-- JavaScript `parseInt(s, 10)`: skip whitespace, optional sign, then
leading decimal digits; `none` models `NaN`. -/
def parseIntJS (s : List Char) : Option Int :=
  let lead : List Char → Option Nat := fun cs =>
    match cs with
    | c :: _ => if isDigit c then some (digitsToNat 0 cs).1 else none
    | [] => none
  match skipWS s with
  | '-' :: cs => (lead cs).map (fun n => -(n : Int))
  | '+' :: cs => (lead cs).map (fun n => (n : Int))
  | cs => (lead cs).map (fun n => (n : Int))

/-! ### The command-extraction pipeline `_updateStateAndParseCommands`
(ChatInterface.tsx lines 213-377)

The eight command regexes are matched in the source's order (HP, status,
dice, focus, XP, award item, consume item, level-up initiate).  For each:
the first match is located, its JSON payload parsed inside a `try`/`catch`
(a parse failure leaves the state untouched), and the matched span is
stripped from the text and the text trimmed — stripping happens whether or
not the payload parsed. -/

/-- The state snapshot handed to `_updateStateAndParseCommands`
(parameters `currentSnapshot*`).  Statuses and the focus target are carried
as raw JSON values, exactly as the JavaScript stores whatever
`JSON.parse` produced. -/
structure Snapshot where
  hp : Int
  maxHp : Int
  statuses : List Json
  focusTargetInfo : Option Json
  diceRollRequest : Option DiceRollRequest
  inventory : List Item
  currentXP : Int

/-- The result record `ProcessedAiCommandsResult`. -/
structure ProcessedResult where
  cleanedText : List Char
  newHp : Int
  newMaxHp : Int
  newStatuses : List Json
  newFocusTargetInfo : Option Json
  newDiceRollRequest : Option DiceRollRequest
  xpAward : Option (Int × List Char)
  levelUpInitiateReason : Option (List Char)
  itemAward : Option (List Char × List Char × ItemType × Int)
  itemConsumed : Option (List Char × Int)
  newInventory : List Item
  newCurrentXP : Int

/-- Reparse of a matched payload group: the regex group is `{...}`, and the
scanner hands over the body between the braces. -/
def parsePayload (body : List Char) : Option Json :=
  parseJson ('{' :: (body ++ ['}']))

/-- `PLAYER_HP_UPDATE` payload application (lines 237-246). -/
def applyHpCmd (body : List Char) (st : ProcessedResult) : ProcessedResult :=
  match parsePayload body with
  | some (.obj fs) =>
      let st1 :=
        match getField fs "hp".toList with
        | some (.num n) => { st with newHp := n }
        | _ => st
      match getField fs "maxHp".toList with
      | some (.num n) => { st1 with newMaxHp := n }
      | _ => st1
  | _ => st

/-- `PLAYER_STATUS_UPDATE` payload application (lines 248-258):
only `Array.isArray(statuses)` is checked. -/
def applyStatusCmd (body : List Char) (st : ProcessedResult) : ProcessedResult :=
  match parsePayload body with
  | some (.obj fs) =>
      match getField fs "statuses".toList with
      | some (.arr xs) => { st with newStatuses := xs }
      | _ => st
  | _ => st

/-- All-or-nothing decoding of a list (models `array.every(...)` together
with the element casts). -/
def optMapM (f : α → Option β) : List α → Option (List β)
  | [] => some []
  | x :: xs =>
      match f x with
      | some y =>
          match optMapM f xs with
          | some ys => some (y :: ys)
          | none => none
      | none => none

/-- Decode one `statsToRoll` entry: it must be a string that is a member of
the `StatName` enumeration. -/
def statOfJson : Json → Option StatName
  | .str s => statNameOfStr s
  | _ => none

/-- The `DICE_ROLL_REQUEST` validation (lines 263-271): `statsToRoll` must be
a non-empty array whose entries are all `StatName` enum values, and
`description` and `id` must be strings. -/
def diceReqOfJson (j : Json) : Option DiceRollRequest :=
  match j with
  | .obj fs =>
      match getField fs "statsToRoll".toList, getField fs "description".toList,
            getField fs "id".toList with
      | some (.arr xs), some (.str ds), some (.str rid) =>
          if xs.length > 0 then
            match optMapM statOfJson xs with
            | some stats => some { id := rid, statsToRoll := stats, description := ds }
            | none => none
          else none
      | _, _, _ => none
  | _ => none

/-- `DICE_ROLL_REQUEST` payload application (lines 260-274). -/
def applyDiceCmd (body : List Char) (st : ProcessedResult) : ProcessedResult :=
  match parsePayload body with
  | some j =>
      match diceReqOfJson j with
      | some r => { st with newDiceRollRequest := some r }
      | none => st
  | none => st

/-- The `hp`/`maxHp` coercion of the focus payload (lines 283-284):
a present non-number field becomes `parseInt(String(v), 10) || undefined`. -/
def coerceNumField (fs : List (List Char × Json)) (k : List Char) :
    List (List Char × Json) :=
  match getField fs k with
  | none => fs
  | some (.num _) => fs
  | some v =>
      match parseIntJS (jsToString v) with
      | some n => if n = 0 then removeField fs k else setFieldVal fs k (.num n)
      | none => removeField fs k

/-- `FOCUS_PANEL_UPDATE` payload application (lines 276-290): the literal
`null` alternative or an empty object clears the focus target; otherwise the
object is stored after the `hp`/`maxHp` coercion. -/
def applyFocusCmd (body? : Option (List Char)) (st : ProcessedResult) : ProcessedResult :=
  match body? with
  | none => { st with newFocusTargetInfo := none }
  | some body =>
      match parsePayload body with
      | some (.obj []) => { st with newFocusTargetInfo := none }
      | some (.obj fs) =>
          { st with newFocusTargetInfo := some (Json.obj
              (coerceNumField (coerceNumField fs "hp".toList) "maxHp".toList)) }
      | _ => st

/-- `AWARD_XP` payload application (lines 292-303). -/
def applyXpCmd (body : List Char) (st : ProcessedResult) : ProcessedResult :=
  match parsePayload body with
  | some (.obj fs) =>
      match getField fs "amount".toList, getField fs "reason".toList with
      | some (.num amount), some (.str reason) =>
          { st with xpAward := some (amount, reason)
                    newCurrentXP := st.newCurrentXP + amount }
      | _, _ => st
  | _ => st

/-- `AWARD_ITEM` payload application (lines 305-333): validation plus the
stackable-category merge `applyAwardItem`. -/
def applyAwardCmd (now : Int) (body : List Char) (st : ProcessedResult) : ProcessedResult :=
  match parsePayload body with
  | some (.obj fs) =>
      match getField fs "name".toList, getField fs "description".toList,
            getField fs "type".toList, getField fs "quantity".toList with
      | some (.str nm), some (.str ds), some (.str tys), some (.num q) =>
          match itemTypeOfStr tys with
          | some ty =>
              if q > 0 then
                { st with itemAward := some (nm, ds, ty, q)
                          newInventory := applyAwardItem now st.newInventory nm ds ty q }
              else st
          | none => st
      | _, _, _, _ => st
  | _ => st

/-- `CONSUME_ITEM` payload application (lines 335-359): `itemConsumed` is
recorded whenever the payload validates; the inventory changes only per
`applyConsumeItem`. -/
def applyConsumeCmd (body : List Char) (st : ProcessedResult) : ProcessedResult :=
  match parsePayload body with
  | some (.obj fs) =>
      match getField fs "name".toList, getField fs "quantity".toList with
      | some (.str nm), some (.num q) =>
          if q > 0 then
            { st with itemConsumed := some (nm, q)
                      newInventory := applyConsumeItem st.newInventory nm q }
          else st
      | _, _ => st
  | _ => st

/-- `LEVEL_UP_INITIATE` payload application (lines 362-372). -/
def applyLvlCmd (body : List Char) (st : ProcessedResult) : ProcessedResult :=
  match parsePayload body with
  | some (.obj fs) =>
      match getField fs "reason".toList with
      | some (.str reason) => { st with levelUpInitiateReason := some reason }
      | _ => st
  | _ => st

/-- One extraction stage: locate the first match on the current text, apply
the payload (the `try`/`catch` around `JSON.parse` is inside
`applyPayload`), then strip the matched span and trim.  With no match the
text and state are untouched. -/
def runStage (find : List Char → Option (List Char × α × List Char))
    (applyPayload : α → ProcessedResult → ProcessedResult)
    (st : ProcessedResult) : ProcessedResult :=
  match find st.cleanedText with
  | none => st
  | some (b, p, a) =>
      let st1 := applyPayload p st
      { st1 with cleanedText := jsTrim (b ++ a) }

/-- The command sigils, from the regex constants (ChatInterface.tsx 26-33). -/
def hpSig : List Char := "PLAYER_HP_UPDATE::".toList
def statusSig : List Char := "PLAYER_STATUS_UPDATE::".toList
def diceSig : List Char := "DICE_ROLL_REQUEST::".toList
def focusSig : List Char := "FOCUS_PANEL_UPDATE::".toList
def xpSig : List Char := "AWARD_XP::".toList
def awardSig : List Char := "AWARD_ITEM::".toList
def consumeSig : List Char := "CONSUME_ITEM::".toList
def lvlSig : List Char := "LEVEL_UP_INITIATE::".toList

def stageHp : ProcessedResult → ProcessedResult :=
  runStage (scanFirst (tryCmd hpSig)) applyHpCmd
def stageStatus : ProcessedResult → ProcessedResult :=
  runStage (scanFirst (tryCmd statusSig)) applyStatusCmd
def stageDice : ProcessedResult → ProcessedResult :=
  runStage (scanFirst (tryCmd diceSig)) applyDiceCmd
def stageFocus : ProcessedResult → ProcessedResult :=
  runStage (scanFirst (tryFocus focusSig)) applyFocusCmd
def stageXp : ProcessedResult → ProcessedResult :=
  runStage (scanFirst (tryCmd xpSig)) applyXpCmd
def stageAward (now : Int) : ProcessedResult → ProcessedResult :=
  runStage (scanFirst (tryCmd awardSig)) (applyAwardCmd now)
def stageConsume : ProcessedResult → ProcessedResult :=
  runStage (scanFirst (tryCmd consumeSig)) applyConsumeCmd
def stageLvl : ProcessedResult → ProcessedResult :=
  runStage (scanFirst (tryCmd lvlSig)) applyLvlCmd

/-- The initial result record (lines 224-235): all snapshot fields are
copied and `newDiceRollRequest` starts as `null` (deliberately not the
snapshot value). -/
def initResult (aiText : List Char) (snap : Snapshot) : ProcessedResult :=
  { cleanedText := cleanPotentialUndefined aiText
    newHp := snap.hp
    newMaxHp := snap.maxHp
    newStatuses := snap.statuses
    newFocusTargetInfo := snap.focusTargetInfo
    newDiceRollRequest := none
    xpAward := none
    levelUpInitiateReason := none
    itemAward := none
    itemConsumed := none
    newInventory := snap.inventory
    newCurrentXP := snap.currentXP }

/-- `_updateStateAndParseCommands`: the eight stages in source order.
`now` models `Date.now()` (used only for generated item ids). -/
def updateStateAndParseCommands (now : Int) (aiText : List Char) (snap : Snapshot) :
    ProcessedResult :=
  stageLvl (stageConsume (stageAward now
    (stageXp (stageFocus (stageDice (stageStatus (stageHp (initResult aiText snap))))))))

/-! ## Scanning lemmas

Facts about `pfx`, `occursB`, `takeToBrace` and `scanFirst` used to evaluate
the extraction pipeline on turn texts that contain a symbolic (universally
quantified) payload. -/

theorem pfx_append_self (p t : List Char) : pfx p (p ++ t) = true := by
  induction p with
  | nil => rfl
  | cons a as ih => simp [pfx, ih]

theorem pfx_length_le (p : List Char) : ∀ a b : List Char, p.length ≤ a.length →
    pfx p (a ++ b) = pfx p a := by
  induction p with
  | nil => intro a b _; rfl
  | cons x xs ih =>
      intro a b h
      cases a with
      | nil => simp at h
      | cons y ys =>
          simp only [List.cons_append, pfx]
          by_cases hxy : x = y
          · rw [if_pos hxy, if_pos hxy]
            exact ih ys b (by simpa using h)
          · rw [if_neg hxy, if_neg hxy]

theorem pfx_short_append (p : List Char) : ∀ (t : List Char) (c : Char) (zs : List Char),
    t.length < p.length → c ∉ p → pfx p (t ++ c :: zs) = false := by
  induction p with
  | nil => intro t c zs h _; simp at h
  | cons x xs ih =>
      intro t c zs h hc
      cases t with
      | nil =>
          simp only [List.nil_append, pfx]
          rw [if_neg (by intro hxc; exact hc (hxc ▸ List.mem_cons_self x xs))]
      | cons y ys =>
          simp only [List.cons_append, pfx]
          by_cases hxy : x = y
          · rw [if_pos hxy]
            exact ih ys c zs (by simpa using h) (fun hm => hc (List.mem_cons_of_mem x hm))
          · rw [if_neg hxy]

theorem pfx_of_pfx_append : ∀ (t p r : List Char), pfx p (t ++ r) = true →
    t.length ≤ p.length → pfx t p = true := by
  intro t
  induction t with
  | nil => intro p r _ _; rfl
  | cons y ys ih =>
      intro p r h hlen
      cases p with
      | nil => simp at hlen
      | cons x xs =>
          simp only [List.cons_append, pfx] at h
          by_cases hxy : x = y
          · simp only [pfx, if_pos hxy.symm]
            rw [if_pos hxy] at h
            exact ih xs r h (by simpa using hlen)
          · rw [if_neg hxy] at h
            exact absurd h (by simp)

theorem occursB_suffix (p : List Char) : ∀ s t : List Char, occursB p s = false →
    t <:+ s → pfx p t = false := by
  intro s
  induction s with
  | nil =>
      intro t h ht
      rw [List.suffix_nil.mp ht]
      simpa [occursB] using h
  | cons c cs ih =>
      intro t h ht
      simp only [occursB, Bool.or_eq_false_iff] at h
      rcases List.suffix_cons_iff.mp ht with h1 | h1
      · rw [h1]; exact h.1
      · exact ih t h.2 h1

/-- No match of `pat` can start strictly inside `x` when `x` is followed by
`y`: the scanning precondition for skipping a prefix. -/
def NoMatchAt (pat x y : List Char) : Prop :=
  ∀ t, t <:+ x → t ≠ [] → pfx pat (t ++ y) = false

/-- A decidable sufficient condition for `NoMatchAt pat x y` that does not
look at `y`: no nonempty suffix of `x` is a prefix of `pat`, and `pat` does
not occur as a prefix of any suffix of `x`. -/
def safeBefore (pat x : List Char) : Bool :=
  x.tails.all (fun t =>
    if t.isEmpty then true
    else if t.length < pat.length then !(pfx t pat)
    else !(pfx pat t))

theorem noMatchAt_of_safeBefore (pat x : List Char) (h : safeBefore pat x = true)
    (y : List Char) : NoMatchAt pat x y := by
  intro t ht hne
  have hmem : t ∈ x.tails := (List.mem_tails t x).mpr ht
  have hcond := (List.all_eq_true.mp h) t hmem
  rw [if_neg (by simpa using hne)] at hcond
  by_cases hlen : t.length < pat.length
  · rw [if_pos hlen] at hcond
    by_contra hcontra
    have hp : pfx pat (t ++ y) = true := by
      cases hpp : pfx pat (t ++ y) with
      | true => rfl
      | false => exact absurd hpp hcontra
    have := pfx_of_pfx_append t pat y hp (le_of_lt hlen)
    simp [this] at hcond
  · rw [if_neg hlen] at hcond
    rw [pfx_length_le pat t y (by omega)]
    simpa using hcond

/-- Skipping a symbolic segment: `pat` does not occur inside `b`, and the
character right after `b` does not occur in `pat` at all, so no match can
start inside `b`. -/
theorem noMatchAt_sym (pat b y : List Char) (c : Char)
    (hocc : occursB pat b = false) (hy : y.head? = some c) (hc : c ∉ pat) :
    NoMatchAt pat b y := by
  intro t ht hne
  cases y with
  | nil => simp at hy
  | cons c0 ys =>
      have hc0 : c0 = c := by simpa using hy
      have hc' : c0 ∉ pat := by rw [hc0]; exact hc
      by_cases hlen : t.length < pat.length
      · exact pfx_short_append pat t c0 ys hlen hc'
      · rw [pfx_length_le pat t (c0 :: ys) (by omega)]
        exact occursB_suffix pat b t hocc ht

/-- No nonempty suffix of `s` starts with `pat`. -/
def NoPfxSuffix (pat s : List Char) : Prop :=
  ∀ t, t <:+ s → t ≠ [] → pfx pat t = false

/-- Decidable version of `NoPfxSuffix` for concrete segments. -/
def noPfxSuffixB (pat s : List Char) : Bool :=
  s.tails.all (fun t => t.isEmpty || !(pfx pat t))

theorem noPfxSuffix_of_noPfxSuffixB (pat s : List Char) (h : noPfxSuffixB pat s = true) :
    NoPfxSuffix pat s := by
  intro t ht hne
  have hcond := (List.all_eq_true.mp h) t ((List.mem_tails t s).mpr ht)
  rcases Bool.or_eq_true_iff.mp hcond with h1 | h1
  · exact absurd (by simpa using h1) hne
  · simpa using h1

theorem suffix_append_split {t a b : List Char} (h : t <:+ (a ++ b)) :
    t <:+ b ∨ ∃ t', t' <:+ a ∧ t = t' ++ b := by
  induction a with
  | nil => exact Or.inl (by simpa using h)
  | cons x a' ih =>
      rw [List.cons_append] at h
      rcases List.suffix_cons_iff.mp h with h1 | h1
      · exact Or.inr ⟨x :: a', List.suffix_refl _, by simpa using h1⟩
      · rcases ih h1 with h2 | ⟨t', ht', rfl⟩
        · exact Or.inl h2
        · exact Or.inr ⟨t', ht'.trans (List.suffix_cons x a'), rfl⟩

theorem noPfxSuffix_append (pat a b : List Char)
    (h1 : NoMatchAt pat a b) (h2 : NoPfxSuffix pat b) : NoPfxSuffix pat (a ++ b) := by
  intro t ht hne
  rcases suffix_append_split ht with hcase | ⟨t', ht', rfl⟩
  · exact h2 t hcase hne
  · by_cases ht'e : t' = []
    · subst ht'e
      exact h2 b (List.suffix_refl b) (by simpa using hne)
    · exact h1 t' ht' ht'e

theorem scanFirst_append {α : Type} (tryAt : List Char → Option (α × List Char))
    (x y : List Char) (h : ∀ t, t <:+ x → t ≠ [] → tryAt (t ++ y) = none) :
    scanFirst tryAt (x ++ y) =
      (scanFirst tryAt y).map (fun r => (x ++ r.1, r.2.1, r.2.2)) := by
  induction x with
  | nil =>
      cases hy : scanFirst tryAt y with
      | none => simp [hy]
      | some r => simp [hy]
  | cons c x' ih =>
      have hx : tryAt (c :: (x' ++ y)) = none := by
        have h0 := h (c :: x') (List.suffix_refl _) (by simp)
        simpa using h0
      have ih' := ih (fun t ht hne => h t (ht.trans (List.suffix_cons c x')) hne)
      rw [List.cons_append, scanFirst, hx, ih']
      cases hy : scanFirst tryAt y with
      | none => simp
      | some r => simp

theorem scanFirst_none {α : Type} (tryAt : List Char → Option (α × List Char))
    (x : List Char) (h : ∀ t, t <:+ x → t ≠ [] → tryAt t = none) :
    scanFirst tryAt x = none := by
  induction x with
  | nil => rfl
  | cons c x' ih =>
      rw [scanFirst, h (c :: x') (List.suffix_refl _) (by simp)]
      rw [ih (fun t ht hne => h t (ht.trans (List.suffix_cons c x')) hne)]

theorem scanFirst_pos {α : Type} (tryAt : List Char → Option (α × List Char))
    (s : List Char) (p : α) (r : List Char) (hs : s ≠ [])
    (h : tryAt s = some (p, r)) : scanFirst tryAt s = some ([], p, r) := by
  cases s with
  | nil => exact absurd rfl hs
  | cons c cs => rw [scanFirst, h]

theorem takeToBrace_append (p r : List Char) (hp : '}' ∉ p) :
    takeToBrace (p ++ '}' :: r) = some (p, r) := by
  induction p with
  | nil => simp [takeToBrace]
  | cons c p' ih =>
      have hc : ¬ (c = '}') := fun hc => hp (hc ▸ List.mem_cons_self c p')
      rw [List.cons_append, takeToBrace, if_neg hc,
        ih (fun hm => hp (List.mem_cons_of_mem c hm))]

theorem tryCmd_none_of_pfx_false (sig s : List Char)
    (h : pfx (sig ++ ['{']) s = false) : tryCmd sig s = none := by
  unfold tryCmd
  rw [h]
  rfl

theorem tryCmd_match (sig p r : List Char) (hp : '}' ∉ p) :
    tryCmd sig (sig ++ '{' :: (p ++ '}' :: r)) = some (p, r) := by
  unfold tryCmd
  have hshape : sig ++ '{' :: (p ++ '}' :: r) = (sig ++ ['{']) ++ (p ++ '}' :: r) := by
    simp
  rw [hshape, pfx_append_self, if_pos rfl]
  have hdrop : ((sig ++ ['{']) ++ (p ++ '}' :: r)).drop (sig.length + 1) = p ++ '}' :: r := by
    have : (sig ++ ['{']).length = sig.length + 1 := by simp
    rw [← this, List.drop_left]
  rw [hdrop, takeToBrace_append p r hp]

theorem tryFocus_none_of_pfx_false (sig s : List Char)
    (h : pfx sig s = false) : tryFocus sig s = none := by
  unfold tryFocus
  rw [h]
  rfl

/-! ## Trimming lemmas -/

theorem head?_append_left (x y : List Char) (h : x ≠ []) :
    (x ++ y).head? = x.head? := by
  cases x with
  | nil => exact absurd rfl h
  | cons c cs => rfl

theorem append_ne_nil_right (x y : List Char) (h : y ≠ []) : x ++ y ≠ [] := by
  cases x <;> simp [h]

theorem getLast?_append_right (x y : List Char) (h : y ≠ []) :
    (x ++ y).getLast? = y.getLast? := by
  rw [← List.head?_reverse, ← List.head?_reverse, List.reverse_append,
    head?_append_left _ _ (by simpa using h)]

theorem trimL_eq_self (s : List Char) (c : Char) (h : s.head? = some c)
    (hc : isWS c = false) : trimL s = s := by
  cases s with
  | nil => simp at h
  | cons a t =>
      have : a = c := by simpa using h
      subst this
      simp [trimL, List.dropWhile_cons, hc]

theorem jsTrim_eq_self (s : List Char) (c d : Char)
    (h1 : s.head? = some c) (hc : isWS c = false)
    (h2 : s.getLast? = some d) (hd : isWS d = false) : jsTrim s = s := by
  unfold jsTrim
  have hrev : s.reverse.head? = some d := by rw [List.head?_reverse]; exact h2
  rw [trimL_eq_self s.reverse d hrev hd, List.reverse_reverse,
    trimL_eq_self s c h1 hc]

theorem pfx_head_ne (p0 : Char) (ps s : List Char) (c : Char)
    (hs : s.head? = some c) (hne : p0 ≠ c) : pfx (p0 :: ps) s = false := by
  cases s with
  | nil => simp at hs
  | cons a t =>
      have : a = c := by simpa using hs
      subst this
      simp [pfx, if_neg hne]

theorem append_ne_nil_left (x y : List Char) (h : x ≠ []) : x ++ y ≠ [] := by
  cases x
  · exact absurd rfl h
  · simp

theorem jsTrim_concat2 (x m z : List Char) (c d : Char)
    (hx : x.head? = some c) (hc : isWS c = false)
    (hz : z.getLast? = some d) (hd : isWS d = false) :
    jsTrim (x ++ (m ++ z)) = x ++ (m ++ z) := by
  have hxne : x ≠ [] := by cases x <;> simp_all
  have hzne : z ≠ [] := by cases z <;> simp_all
  apply jsTrim_eq_self _ c d
  · rw [head?_append_left _ _ hxne]; exact hx
  · exact hc
  · rw [getLast?_append_right _ _ (append_ne_nil_right _ _ hzne),
      getLast?_append_right _ _ hzne]
    exact hz
  · exact hd

theorem jsTrim_concat3 (x y m z : List Char) (c d : Char)
    (hx : x.head? = some c) (hc : isWS c = false)
    (hz : z.getLast? = some d) (hd : isWS d = false) :
    jsTrim (x ++ (y ++ (m ++ z))) = x ++ (y ++ (m ++ z)) := by
  have hxne : x ≠ [] := by cases x <;> simp_all
  have hzne : z ≠ [] := by cases z <;> simp_all
  apply jsTrim_eq_self _ c d
  · rw [head?_append_left _ _ hxne]; exact hx
  · exact hc
  · rw [getLast?_append_right _ _ (append_ne_nil_right _ _ (append_ne_nil_right _ _ hzne)),
      getLast?_append_right _ _ (append_ne_nil_right _ _ hzne),
      getLast?_append_right _ _ hzne]
    exact hz
  · exact hd

theorem runStage_found {α : Type} (find : List Char → Option (List Char × α × List Char))
    (ap : α → ProcessedResult → ProcessedResult) (st : ProcessedResult)
    (b : List Char) (p : α) (a : List Char)
    (h : find st.cleanedText = some (b, p, a)) :
    runStage find ap st = { ap p st with cleanedText := jsTrim (b ++ a) } := by
  unfold runStage
  rw [h]

theorem runStage_skip {α : Type} (find : List Char → Option (List Char × α × List Char))
    (ap : α → ProcessedResult → ProcessedResult) (st : ProcessedResult)
    (h : find st.cleanedText = none) : runStage find ap st = st := by
  unfold runStage
  rw [h]

/-! ## Claims -/

/-! ### C2: inventory merge by category -/

/-- C2.  For every inventory and every valid `AWARD_ITEM` command with
positive quantity: if the category is stackable (potion, currency, key,
food, misc) and an entry with the same name and category exists, the first
such entry's quantity grows by the awarded amount and no entry is added;
for every other category (weapon, armor, quest, book) a fresh entry is
always appended, even when a same-named entry exists. -/
theorem awardItem_category_merge (now : Int) (inv : List Item) (nm ds : List Char)
    (ty : ItemType) (q : Int) (_hq : 0 < q) :
    (∀ i it, ty ∈ stackableTypes →
        inv.findIdx? (fun it => it.name = nm && it.type = ty) = some i →
        inv.get? i = some it →
        applyAwardItem now inv nm ds ty q =
          inv.set i { it with quantity := it.quantity + q } ∧
        (applyAwardItem now inv nm ds ty q).length = inv.length) ∧
    (ty ∉ stackableTypes →
        applyAwardItem now inv nm ds ty q = inv ++ [newAwardedItem now nm ds ty q]) := by
  constructor
  · intro i it hty hfind hget
    have hres : applyAwardItem now inv nm ds ty q =
        inv.set i { it with quantity := it.quantity + q } := by
      unfold applyAwardItem
      simp only [if_pos hty, hfind, hget]
    exact ⟨hres, by rw [hres, List.length_set]⟩
  · intro hty
    unfold applyAwardItem
    simp only [if_neg hty]

/-- Witness for C2: a potion merges into the existing stack (one entry,
quantity 2) while a second same-named sword is appended as a distinct entry. -/
theorem awardItem_category_merge_witness :
    applyAwardItem 0
        [{ id := "p0".toList, name := "Potion".toList, description := "d".toList,
           type := ItemType.potion, quantity := 1 },
         { id := "s0".toList, name := "Sword".toList, description := "d".toList,
           type := ItemType.weapon, quantity := 1 }]
        "Potion".toList "d".toList ItemType.potion 1 =
      [{ id := "p0".toList, name := "Potion".toList, description := "d".toList,
         type := ItemType.potion, quantity := 2 },
       { id := "s0".toList, name := "Sword".toList, description := "d".toList,
         type := ItemType.weapon, quantity := 1 }] ∧
    applyAwardItem 7
        [{ id := "s0".toList, name := "Sword".toList, description := "d".toList,
           type := ItemType.weapon, quantity := 1 }]
        "Sword".toList "d".toList ItemType.weapon 1 =
      [{ id := "s0".toList, name := "Sword".toList, description := "d".toList,
         type := ItemType.weapon, quantity := 1 },
       newAwardedItem 7 "Sword".toList "d".toList ItemType.weapon 1] := by
  constructor
  · have h := (awardItem_category_merge 0
        [{ id := "p0".toList, name := "Potion".toList, description := "d".toList,
           type := ItemType.potion, quantity := 1 },
         { id := "s0".toList, name := "Sword".toList, description := "d".toList,
           type := ItemType.weapon, quantity := 1 }]
        "Potion".toList "d".toList ItemType.potion 1 (by decide)).1 0
        { id := "p0".toList, name := "Potion".toList, description := "d".toList,
          type := ItemType.potion, quantity := 1 }
        (by decide) (by decide) (by decide)
    exact h.1
  · exact (awardItem_category_merge 7
        [{ id := "s0".toList, name := "Sword".toList, description := "d".toList,
           type := ItemType.weapon, quantity := 1 }]
        "Sword".toList "d".toList ItemType.weapon 1 (by decide)).2 (by decide)

/-! ### C3: consume guard -/

/-- C3.  `CONSUME_ITEM` matches by name only (category-agnostic).  With no
matching entry nothing changes; otherwise, against the first matching entry:
a requested quantity above the held quantity performs no mutation (and the
total function models the absence of any thrown exception), an exact request
removes the entry entirely, and a smaller request decrements the entry. -/
theorem consumeItem_cases (inv : List Item) (nm : List Char) (q : Int) :
    (inv.findIdx? (fun it => it.name = nm) = none → applyConsumeItem inv nm q = inv) ∧
    (∀ i it, inv.findIdx? (fun it => it.name = nm) = some i → inv.get? i = some it →
       (it.quantity < q → applyConsumeItem inv nm q = inv) ∧
       (it.quantity = q → applyConsumeItem inv nm q = inv.eraseIdx i) ∧
       (q < it.quantity →
          applyConsumeItem inv nm q = inv.set i { it with quantity := it.quantity - q })) := by
  constructor
  · intro hnone
    unfold applyConsumeItem
    simp only [hnone]
  · intro i it hfind hget
    refine ⟨?_, ?_, ?_⟩
    · intro hlt
      unfold applyConsumeItem
      simp only [hfind, hget]
      rw [if_neg (by omega), if_neg (by omega)]
    · intro heq
      unfold applyConsumeItem
      simp only [hfind, hget]
      rw [if_neg (by omega), if_pos heq]
    · intro hgt
      unfold applyConsumeItem
      simp only [hfind, hget]
      rw [if_pos (by omega)]

/-- Witness for C3: consuming 5 of 3 held loaves changes nothing; consuming
exactly 3 removes the entry; consuming 1 of 3 leaves 2. -/
theorem consumeItem_cases_witness :
    applyConsumeItem
        [{ id := "b0".toList, name := "Bread".toList, description := "d".toList,
           type := ItemType.food, quantity := 3 }] "Bread".toList 5 =
      [{ id := "b0".toList, name := "Bread".toList, description := "d".toList,
         type := ItemType.food, quantity := 3 }] ∧
    applyConsumeItem
        [{ id := "b0".toList, name := "Bread".toList, description := "d".toList,
           type := ItemType.food, quantity := 3 }] "Bread".toList 3 = [] ∧
    applyConsumeItem
        [{ id := "b0".toList, name := "Bread".toList, description := "d".toList,
           type := ItemType.food, quantity := 3 }] "Bread".toList 1 =
      [{ id := "b0".toList, name := "Bread".toList, description := "d".toList,
         type := ItemType.food, quantity := 2 }] := by
  have h5 := (consumeItem_cases
      [{ id := "b0".toList, name := "Bread".toList, description := "d".toList,
         type := ItemType.food, quantity := 3 }] "Bread".toList 5).2 0
      { id := "b0".toList, name := "Bread".toList, description := "d".toList,
        type := ItemType.food, quantity := 3 } (by decide) (by decide)
  have h3 := (consumeItem_cases
      [{ id := "b0".toList, name := "Bread".toList, description := "d".toList,
         type := ItemType.food, quantity := 3 }] "Bread".toList 3).2 0
      { id := "b0".toList, name := "Bread".toList, description := "d".toList,
        type := ItemType.food, quantity := 3 } (by decide) (by decide)
  have h1 := (consumeItem_cases
      [{ id := "b0".toList, name := "Bread".toList, description := "d".toList,
         type := ItemType.food, quantity := 3 }] "Bread".toList 1).2 0
      { id := "b0".toList, name := "Bread".toList, description := "d".toList,
        type := ItemType.food, quantity := 3 } (by decide) (by decide)
  exact ⟨h5.1 (by decide), h3.2.1 rfl, h1.2.2 (by decide)⟩

/-! ### C5: level-up arithmetic -/

/-- C5.  On level-up completion below max level: maximum HP grows by the
base gain 8 plus the Constitution modifier computed on the post-increase
scores (so a chosen Constitution increase counts); current HP resets to the
new maximum; current XP debits the cleared threshold, floored at zero; the
next threshold comes from `XP_THRESHOLDS[newLevel]`, or is unreachable
(`Infinity`, modelled as `none`) past the table. -/
theorem levelUp_math (st : LevelState) (payload : LevelUpPayload) (T : Int)
    (hlvl : st.level < MAX_LEVEL) (hT : st.xpToNextLevel = some T) :
    (handleLevelUpComplete st payload).maxHp =
      st.maxHp + BASE_HP_GAIN_PER_LEVEL +
        Int.fdiv (jsOrNum ((bumpStat st.stats payload.chosenStatIncrease
          StatName.Constitution).getD 0) BASE_STAT_VALUE - 10) 2 ∧
    (∀ c : Int, payload.chosenStatIncrease = some StatName.Constitution →
        st.stats StatName.Constitution = some c → 0 < c →
        (handleLevelUpComplete st payload).maxHp =
          st.maxHp + 8 + Int.fdiv (c + 1 - 10) 2) ∧
    (handleLevelUpComplete st payload).hp = (handleLevelUpComplete st payload).maxHp ∧
    (handleLevelUpComplete st payload).currentXP = max 0 (st.currentXP - T) ∧
    0 ≤ (handleLevelUpComplete st payload).currentXP ∧
    (handleLevelUpComplete st payload).xpToNextLevel =
      (if st.level + 1 < MAX_LEVEL then some (XP_THRESHOLDS.getD (st.level + 1) 0)
       else none) := by
  have hnot : ¬ st.level ≥ MAX_LEVEL := by omega
  have hxp : xpAfterLevelUp st.currentXP st.xpToNextLevel = max 0 (st.currentXP - T) := by
    rw [hT]
    simp only [xpAfterLevelUp]
    rcases lt_or_le (st.currentXP - T) 0 with h | h
    · rw [if_pos h, max_eq_left (by omega)]
    · rw [if_neg (by omega), max_eq_right h]
  have hmaxHp : (handleLevelUpComplete st payload).maxHp =
      st.maxHp + BASE_HP_GAIN_PER_LEVEL +
        Int.fdiv (jsOrNum ((bumpStat st.stats payload.chosenStatIncrease
          StatName.Constitution).getD 0) BASE_STAT_VALUE - 10) 2 := by
    unfold handleLevelUpComplete
    rw [if_neg hnot]
  refine ⟨hmaxHp, ?_, ?_, ?_, ?_, ?_⟩
  · intro c hchosen hc hcpos
    have h1 : jsOrNum c BASE_STAT_VALUE = c := by
      unfold jsOrNum
      rw [if_neg (by omega)]
    have h2 : jsOrNum (c + 1) BASE_STAT_VALUE = c + 1 := by
      unfold jsOrNum
      rw [if_neg (by omega)]
    have hcon : bumpStat st.stats payload.chosenStatIncrease StatName.Constitution
        = some (c + 1) := by
      rw [hchosen]
      simp only [bumpStat, hc]
      simp [h1]
    rw [hmaxHp, hcon]
    simp only [Option.getD_some]
    rw [h2]
    rfl
  · unfold handleLevelUpComplete
    rw [if_neg hnot]
  · unfold handleLevelUpComplete
    rw [if_neg hnot]
    exact hxp
  · unfold handleLevelUpComplete
    rw [if_neg hnot]
    simp only [hxp]
    exact le_max_left 0 _
  · unfold handleLevelUpComplete
    rw [if_neg hnot]

/-- Witness for C5: max HP 20, Constitution 14 (modifier +2), base gain 8,
XP 350 at threshold 300 gives max HP 30, HP reset to 30, XP 50 carried over,
and the next threshold 600 read from the table. -/
theorem levelUp_math_witness :
    (handleLevelUpComplete
        { level := 2
          stats := fun s => match s with | StatName.Constitution => some 14 | _ => none
          skills := []
          hp := 5, maxHp := 20, currentXP := 350, xpToNextLevel := some 300
          isLevelUpModalOpen := false }
        { chosenStatIncrease := none, chosenAbility := none }).maxHp = 30 ∧
    (handleLevelUpComplete
        { level := 2
          stats := fun s => match s with | StatName.Constitution => some 14 | _ => none
          skills := []
          hp := 5, maxHp := 20, currentXP := 350, xpToNextLevel := some 300
          isLevelUpModalOpen := false }
        { chosenStatIncrease := none, chosenAbility := none }).hp = 30 ∧
    (handleLevelUpComplete
        { level := 2
          stats := fun s => match s with | StatName.Constitution => some 14 | _ => none
          skills := []
          hp := 5, maxHp := 20, currentXP := 350, xpToNextLevel := some 300
          isLevelUpModalOpen := false }
        { chosenStatIncrease := none, chosenAbility := none }).currentXP = 50 ∧
    (handleLevelUpComplete
        { level := 2
          stats := fun s => match s with | StatName.Constitution => some 14 | _ => none
          skills := []
          hp := 5, maxHp := 20, currentXP := 350, xpToNextLevel := some 300
          isLevelUpModalOpen := false }
        { chosenStatIncrease := none, chosenAbility := none }).xpToNextLevel = some 600 := by
  have h := levelUp_math
      { level := 2
        stats := fun s => match s with | StatName.Constitution => some 14 | _ => none
        skills := []
        hp := 5, maxHp := 20, currentXP := 350, xpToNextLevel := some 300
        isLevelUpModalOpen := false }
      { chosenStatIncrease := none, chosenAbility := none } 300 (by decide) rfl
  refine ⟨?_, ?_, ?_, ?_⟩
  · rw [h.1]; rfl
  · rw [h.2.2.1, h.1]; rfl
  · rw [h.2.2.2.1]; rfl
  · rw [h.2.2.2.2.2]; rfl

/-! ### C6: chained level-up re-trigger -/

/-- C6.  Immediately after a level-up is applied, if the remaining XP still
meets the new threshold and the character is below max level, the level-up
modal is re-opened — and while it is open the chat input and send button are
disabled regardless of the other UI flags, so no further player turn can be
submitted. -/
theorem levelUp_retrigger (st : LevelState) (payload : LevelUpPayload)
    (hnext : st.level + 1 < MAX_LEVEL)
    (hxp : XP_THRESHOLDS.getD (st.level + 1) 0 ≤
      (handleLevelUpComplete st payload).currentXP) :
    (handleLevelUpComplete st payload).isLevelUpModalOpen = true ∧
    (∀ a k d r, sendDisabled a k d r
        ((handleLevelUpComplete st payload).isLevelUpModalOpen) = true) := by
  have hnot : ¬ st.level ≥ MAX_LEVEL := by omega
  have hmodal : (handleLevelUpComplete st payload).isLevelUpModalOpen = true := by
    have hxp' : XP_THRESHOLDS.getD (st.level + 1) 0 ≤
        xpAfterLevelUp st.currentXP st.xpToNextLevel := by
      unfold handleLevelUpComplete at hxp
      rw [if_neg hnot] at hxp
      exact hxp
    unfold handleLevelUpComplete
    rw [if_neg hnot]
    simp only [xpMeets, if_pos hnext]
    rw [Bool.and_eq_true]
    exact ⟨by simpa using hxp', by simpa using hnext⟩
  refine ⟨hmodal, ?_⟩
  intro a k d r
  rw [hmodal]
  simp [sendDisabled]

/-- Witness for C6: one level-up that leaves 700 XP against the new
threshold 600 re-opens the modal and keeps input disabled. -/
theorem levelUp_retrigger_witness :
    (handleLevelUpComplete
        { level := 2, stats := fun _ => none, skills := []
          hp := 5, maxHp := 20, currentXP := 1000, xpToNextLevel := some 300
          isLevelUpModalOpen := false }
        { chosenStatIncrease := none, chosenAbility := none }).isLevelUpModalOpen = true ∧
    sendDisabled false true false false
      ((handleLevelUpComplete
        { level := 2, stats := fun _ => none, skills := []
          hp := 5, maxHp := 20, currentXP := 1000, xpToNextLevel := some 300
          isLevelUpModalOpen := false }
        { chosenStatIncrease := none, chosenAbility := none }).isLevelUpModalOpen) = true := by
  have h := levelUp_retrigger
      { level := 2, stats := fun _ => none, skills := []
        hp := 5, maxHp := 20, currentXP := 1000, xpToNextLevel := some 300
        isLevelUpModalOpen := false }
      { chosenStatIncrease := none, chosenAbility := none }
      (by decide) (by decide)
  exact ⟨h.1, h.2 false true false false⟩

/-! ### C4: dice-roll suppression -/

/-- C4.  After a roll report with id `X` is resolved, a subsequent turn whose
text yields a dice-roll command with the same id `X` is suppressed (no active
request, dice interface inactive), while a turn yielding a different id `Y`
activates an active request for `Y`. -/
theorem dice_roll_suppression (st : DiceFlowState) (report : DiceRollReport)
    (now : Int) (tX tY : List Char) (snapX snapY : Snapshot)
    (reqX reqY : DiceRollRequest)
    (hX : (updateStateAndParseCommands now tX snapX).newDiceRollRequest = some reqX)
    (hY : (updateStateAndParseCommands now tY snapY).newDiceRollRequest = some reqY)
    (hidX : reqX.id = report.rollId)
    (hidY : reqY.id ≠ report.rollId) :
    (applyNewDiceRollRequest (handleDiceRollComplete st report)
      (updateStateAndParseCommands now tX snapX).newDiceRollRequest).activeDiceRollRequest
        = none ∧
    (applyNewDiceRollRequest (handleDiceRollComplete st report)
      (updateStateAndParseCommands now tX snapX).newDiceRollRequest).isDiceInterfaceActive
        = false ∧
    (applyNewDiceRollRequest (handleDiceRollComplete st report)
      (updateStateAndParseCommands now tY snapY).newDiceRollRequest).activeDiceRollRequest
        = some reqY ∧
    (applyNewDiceRollRequest (handleDiceRollComplete st report)
      (updateStateAndParseCommands now tY snapY).newDiceRollRequest).isDiceInterfaceActive
        = true := by
  rw [hX, hY]
  have hcondX : (handleDiceRollComplete st report).lastResolvedRollId = some reqX.id := by
    show some report.rollId = some reqX.id
    rw [hidX]
  have hcondY : ¬ ((handleDiceRollComplete st report).lastResolvedRollId = some reqY.id) := by
    show ¬ (some report.rollId = some reqY.id)
    intro h
    exact hidY (Option.some.inj h).symm
  have hsup : applyNewDiceRollRequest (handleDiceRollComplete st report) (some reqX)
      = handleDiceRollComplete st report := by
    simp only [applyNewDiceRollRequest]
    rw [if_pos hcondX]
  have hact : applyNewDiceRollRequest (handleDiceRollComplete st report) (some reqY)
      = { activeDiceRollRequest := some reqY, isDiceInterfaceActive := true,
          lastResolvedRollId := none } := by
    simp only [applyNewDiceRollRequest]
    rw [if_neg hcondY]
  rw [hsup, hact]
  exact ⟨rfl, rfl, rfl, rfl⟩

/-- Witness for C4: resolving roll id `r1`, a turn re-requesting `r1` stays
suppressed while a turn requesting `r2` activates. -/
theorem dice_roll_suppression_witness :
    (applyNewDiceRollRequest
      (handleDiceRollComplete
        { activeDiceRollRequest := none, isDiceInterfaceActive := false,
          lastResolvedRollId := none }
        { rollId := "r1".toList, rollDescription := "jump".toList, results := [] })
      (updateStateAndParseCommands 0
        "DICE_ROLL_REQUEST::\x7b\"id\":\"r1\",\"statsToRoll\":[\"Strength\"],\"description\":\"jump\"\x7d".toList
        { hp := 1, maxHp := 1, statuses := [], focusTargetInfo := none,
          diceRollRequest := none, inventory := [], currentXP := 0 }).newDiceRollRequest
      ).activeDiceRollRequest = none ∧
    (applyNewDiceRollRequest
      (handleDiceRollComplete
        { activeDiceRollRequest := none, isDiceInterfaceActive := false,
          lastResolvedRollId := none }
        { rollId := "r1".toList, rollDescription := "jump".toList, results := [] })
      (updateStateAndParseCommands 0
        "DICE_ROLL_REQUEST::\x7b\"id\":\"r2\",\"statsToRoll\":[\"Strength\"],\"description\":\"jump\"\x7d".toList
        { hp := 1, maxHp := 1, statuses := [], focusTargetInfo := none,
          diceRollRequest := none, inventory := [], currentXP := 0 }).newDiceRollRequest
      ).activeDiceRollRequest =
      some { id := "r2".toList, statsToRoll := [StatName.Strength],
             description := "jump".toList } := by
  have h := dice_roll_suppression
      { activeDiceRollRequest := none, isDiceInterfaceActive := false,
        lastResolvedRollId := none }
      { rollId := "r1".toList, rollDescription := "jump".toList, results := [] }
      0
      "DICE_ROLL_REQUEST::\x7b\"id\":\"r1\",\"statsToRoll\":[\"Strength\"],\"description\":\"jump\"\x7d".toList
      "DICE_ROLL_REQUEST::\x7b\"id\":\"r2\",\"statsToRoll\":[\"Strength\"],\"description\":\"jump\"\x7d".toList
      { hp := 1, maxHp := 1, statuses := [], focusTargetInfo := none,
        diceRollRequest := none, inventory := [], currentXP := 0 }
      { hp := 1, maxHp := 1, statuses := [], focusTargetInfo := none,
        diceRollRequest := none, inventory := [], currentXP := 0 }
      { id := "r1".toList, statsToRoll := [StatName.Strength], description := "jump".toList }
      { id := "r2".toList, statsToRoll := [StatName.Strength], description := "jump".toList }
      (by decide) (by decide) (by decide) (by decide)
  exact ⟨h.1, h.2.2.1⟩

/-! ### C7: dice resolution -/

/-- C7.  `performRoll` produces one result per requested ability in order:
`diceValue` lies in `[1, 20]` whenever the random draw lies in `[0, 1)`,
`modifier = floor((score - 10) / 2)` with absent scores defaulting to the
baseline 10, `totalValue = diceValue + modifier`, and the report preserves
the request id and description; the modifier examples 10→0, 8→-1, 16→3,
3→-4 hold. -/
theorem performRoll_results (request : DiceRollRequest) (stats : Stats) (rnd : Nat → ℚ)
    (hrnd : ∀ n, 0 ≤ rnd n ∧ rnd n < 1) :
    (performRoll request stats rnd).rollId = request.id ∧
    (performRoll request stats rnd).rollDescription = request.description ∧
    (performRoll request stats rnd).results.length = request.statsToRoll.length ∧
    (∀ i s, request.statsToRoll.get? i = some s →
       ∃ res, (performRoll request stats rnd).results.get? i = some res ∧
         res.statName = s ∧
         1 ≤ res.diceValue ∧ res.diceValue ≤ 20 ∧
         res.modifier = Int.fdiv ((stats s).getD BASE_STAT_VALUE - 10) 2 ∧
         res.totalValue = res.diceValue + res.modifier) ∧
    abilityModifier 10 = 0 ∧ abilityModifier 8 = -1 ∧
    abilityModifier 16 = 3 ∧ abilityModifier 3 = -4 := by
  refine ⟨rfl, rfl, ?_, ?_, by decide, by decide, by decide, by decide⟩
  · simp [performRoll]
  · intro i s hs
    have henum : request.statsToRoll.enum.get? i = some (i, s) := by
      rw [List.get?_enum, hs]
      rfl
    refine ⟨{ statName := s, diceValue := rollD20 (rnd i),
              modifier := abilityModifier ((stats s).getD BASE_STAT_VALUE),
              totalValue := rollD20 (rnd i) +
                abilityModifier ((stats s).getD BASE_STAT_VALUE) },
            ?_, rfl, ?_, ?_, rfl, rfl⟩
    · show (request.statsToRoll.enum.map _).get? i = _
      rw [List.get?_map, henum]
      rfl
    · show (1 : Int) ≤ rollD20 (rnd i)
      have h0 : (0 : Int) ≤ ⌊rnd i * 20⌋ := by
        apply Int.floor_nonneg.mpr
        have := (hrnd i).1
        positivity
      unfold rollD20
      omega
    · show rollD20 (rnd i) ≤ 20
      have h19 : ⌊rnd i * 20⌋ < 20 := by
        apply Int.floor_lt.mpr
        push_cast
        have := (hrnd i).2
        nlinarith
      unfold rollD20
      omega

/-- Witness for C7: a single Strength roll with score 16 and random draw 1/2
keeps the request id and yields one result. -/
theorem performRoll_results_witness :
    (performRoll
        { id := "w1".toList, statsToRoll := [StatName.Strength],
          description := "test".toList }
        (fun s => match s with | StatName.Strength => some 16 | _ => none)
        (fun _ => (1 : ℚ) / 2)).rollId = "w1".toList ∧
    (performRoll
        { id := "w1".toList, statsToRoll := [StatName.Strength],
          description := "test".toList }
        (fun s => match s with | StatName.Strength => some 16 | _ => none)
        (fun _ => (1 : ℚ) / 2)).results.length = 1 := by
  have h := performRoll_results
      { id := "w1".toList, statsToRoll := [StatName.Strength],
        description := "test".toList }
      (fun s => match s with | StatName.Strength => some 16 | _ => none)
      (fun _ => (1 : ℚ) / 2)
      (by intro n; constructor <;> norm_num)
  exact ⟨h.1, h.2.2.1⟩

/-! ### C9: the autosave gate -/

/-- C9.  A snapshot is persisted after a turn only when the game is in
active gameplay, no dice roll is pending at the start of the turn (or the
pending roll was resolved by this very turn), and no level-up choice is
pending; in particular the gate evaluates to false whenever a dice roll is
pending without having been resolved by this turn, or a level-up choice is
pending. -/
theorem autosave_gate (gp : GamePhase) (k d p l : Bool) :
    (conditionsForAutosave gp k d p l = true →
       gp = GamePhase.gameplay ∧ (d = false ∨ p = true) ∧ l = false) ∧
    (l = true → conditionsForAutosave gp k d p l = false) ∧
    (d = true → p = false → conditionsForAutosave gp k d p l = false) := by
  cases gp <;> cases k <;> cases d <;> cases p <;> cases l <;> decide

/-- Witness for C9: with a level-up pending the gate denies the save. -/
theorem autosave_gate_witness :
    conditionsForAutosave GamePhase.gameplay true false false true = false :=
  (autosave_gate GamePhase.gameplay true false false true).2.1 rfl

/-! ### C8: dice-request validation -/

theorem optMapM_isSome {α β : Type} (f : α → Option β) : ∀ xs : List α,
    (optMapM f xs).isSome = xs.all (fun x => (f x).isSome) := by
  intro xs
  induction xs with
  | nil => rfl
  | cons x xs ih =>
      simp only [optMapM, List.all_cons]
      cases hf : f x with
      | none => rfl
      | some y =>
          cases ho : optMapM f xs with
          | none =>
              rw [ho] at ih
              simp [← ih]
          | some ys =>
              rw [ho] at ih
              simp [← ih]

/-- The acceptance condition in the amended claim's words: `statsToRoll` is
an array with at least one entry, every entry is a member of the six-name
ability enumeration, and `id` and `description` are strings.  No upper bound
on the entry count appears (the code enforces none). -/
def validDiceSpec (j : Json) : Bool :=
  match j with
  | .obj fs =>
      match getField fs "statsToRoll".toList, getField fs "description".toList,
            getField fs "id".toList with
      | some (.arr xs), some (.str _), some (.str _) =>
          decide (xs.length > 0) && xs.all (fun x => (statOfJson x).isSome)
      | _, _, _ => false
  | _ => false

/-- C8 (amended).  A `DICE_ROLL_REQUEST` payload is accepted exactly when
`statsToRoll` is a non-empty array whose entries all belong to the six-name
ability enumeration and `id`/`description` are strings — with no upper bound
on the entry count; a single invalid entry invalidates the whole command.
And whenever the dice regex matches, the matched span is stripped from the
text whether or not the payload was accepted. -/
theorem dice_request_validation (j : Json) (st : ProcessedResult) :
    (diceReqOfJson j).isSome = validDiceSpec j ∧
    (∀ b p a, scanFirst (tryCmd diceSig) st.cleanedText = some (b, p, a) →
        (stageDice st).cleanedText = jsTrim (b ++ a)) := by
  constructor
  · cases j with
    | obj fs =>
        unfold diceReqOfJson validDiceSpec
        dsimp only
        cases h1 : getField fs "statsToRoll".toList with
        | none => rfl
        | some v1 =>
            cases v1 with
            | arr xs =>
                cases h2 : getField fs "description".toList with
                | none => rfl
                | some v2 =>
                    cases v2 with
                    | str ds =>
                        cases h3 : getField fs "id".toList with
                        | none => rfl
                        | some v3 =>
                            cases v3 with
                            | str rid =>
                                dsimp only
                                by_cases hlen : xs.length > 0
                                · rw [if_pos hlen]
                                  have hd : decide (xs.length > 0) = true := by
                                    simpa using hlen
                                  rw [hd, Bool.true_and, ← optMapM_isSome]
                                  cases optMapM statOfJson xs <;> rfl
                                · rw [if_neg hlen]
                                  have hd : decide (xs.length > 0) = false := by
                                    simpa using hlen
                                  rw [hd, Bool.false_and]
                                  rfl
                            | null => rfl
                            | bool b => rfl
                            | num n => rfl
                            | arr a => rfl
                            | obj o => rfl
                    | null => rfl
                    | bool b => rfl
                    | num n => rfl
                    | arr a => rfl
                    | obj o => rfl
            | null => rfl
            | bool b => rfl
            | num n => rfl
            | str s => rfl
            | obj o => rfl
    | null => rfl
    | bool b => rfl
    | num n => rfl
    | str s => rfl
    | arr a => rfl
  · intro b p a hfind
    unfold stageDice runStage
    rw [hfind]

/-- Counterexample to C8 as stated: a syntactically well-formed
`DICE_ROLL_REQUEST` whose `statsToRoll` has four entries — outside the
claimed 1..3 bound — is nonetheless accepted as the active dice-roll
request by the extraction pipeline. -/
theorem diceReq_bound_counterexample :
    (updateStateAndParseCommands 0
      "DICE_ROLL_REQUEST::\x7b\"id\":\"r9\",\"statsToRoll\":[\"Strength\",\"Dexterity\",\"Constitution\",\"Intelligence\"],\"description\":\"all\"\x7d".toList
      { hp := 1, maxHp := 1, statuses := [], focusTargetInfo := none,
        diceRollRequest := none, inventory := [], currentXP := 0 }).newDiceRollRequest =
      some { id := "r9".toList,
             statsToRoll := [StatName.Strength, StatName.Dexterity,
               StatName.Constitution, StatName.Intelligence],
             description := "all".toList } ∧
    [StatName.Strength, StatName.Dexterity, StatName.Constitution,
      StatName.Intelligence].length = 4 := by
  constructor
  · decide
  · rfl

/-- Witness for C8 (amended): a one-entry request is accepted, and a
malformed dice payload is stripped from the text while being ignored. -/
theorem dice_request_validation_witness :
    (diceReqOfJson (Json.obj
      [("statsToRoll".toList, Json.arr [Json.str "Strength".toList]),
       ("description".toList, Json.str "d".toList),
       ("id".toList, Json.str "r".toList)])).isSome =
      validDiceSpec (Json.obj
        [("statsToRoll".toList, Json.arr [Json.str "Strength".toList]),
         ("description".toList, Json.str "d".toList),
         ("id".toList, Json.str "r".toList)]) ∧
    (stageDice
      { cleanedText := "DICE_ROLL_REQUEST::\x7bbad\x7d tail!".toList
        newHp := 1, newMaxHp := 1, newStatuses := [], newFocusTargetInfo := none
        newDiceRollRequest := none, xpAward := none, levelUpInitiateReason := none
        itemAward := none, itemConsumed := none, newInventory := []
        newCurrentXP := 0 }).cleanedText = jsTrim ([] ++ " tail!".toList) := by
  constructor
  · exact (dice_request_validation (Json.obj
      [("statsToRoll".toList, Json.arr [Json.str "Strength".toList]),
       ("description".toList, Json.str "d".toList),
       ("id".toList, Json.str "r".toList)])
      { cleanedText := [], newHp := 1, newMaxHp := 1, newStatuses := [],
        newFocusTargetInfo := none, newDiceRollRequest := none, xpAward := none,
        levelUpInitiateReason := none, itemAward := none, itemConsumed := none,
        newInventory := [], newCurrentXP := 0 }).1
  · exact (dice_request_validation Json.null
      { cleanedText := "DICE_ROLL_REQUEST::\x7bbad\x7d tail!".toList
        newHp := 1, newMaxHp := 1, newStatuses := [], newFocusTargetInfo := none
        newDiceRollRequest := none, xpAward := none, levelUpInitiateReason := none
        itemAward := none, itemConsumed := none, newInventory := []
        newCurrentXP := 0 }).2 [] "bad".toList " tail!".toList rfl



/-! ### C1: malformed-payload containment

The scenario text carries all eight commands in source order, with the
`AWARD_ITEM` payload body a universally quantified malformed string `b`
(`parsePayload b = none`, and `b` free of closing braces so the lazy regex
group ends at the written closing brace).  The narrative fragments are
`Intro.`, single letters, and `End.`. -/

def c1pre : List Char := "Intro. PLAYER_HP_UPDATE::\x7b\"hp\":7,\"maxHp\":25\x7d A PLAYER_STATUS_UPDATE::\x7b\"statuses\":[\"Poisoned\"]\x7d B DICE_ROLL_REQUEST::\x7b\"id\":\"r1\",\"statsToRoll\":[\"Strength\"],\"description\":\"Push\"\x7d C FOCUS_PANEL_UPDATE::\x7b\"name\":\"Goblin\",\"type\":\"npc\"\x7d D AWARD_XP::\x7b\"amount\":40,\"reason\":\"win\"\x7d E AWARD_ITEM::\x7b".toList
def c1post : List Char := "\x7d F CONSUME_ITEM::\x7b\"name\":\"Bread\",\"quantity\":1\x7d G LEVEL_UP_INITIATE::\x7b\"reason\":\"milestone\"\x7d End.".toList
def c1r1 : List Char := " A PLAYER_STATUS_UPDATE::\x7b\"statuses\":[\"Poisoned\"]\x7d B DICE_ROLL_REQUEST::\x7b\"id\":\"r1\",\"statsToRoll\":[\"Strength\"],\"description\":\"Push\"\x7d C FOCUS_PANEL_UPDATE::\x7b\"name\":\"Goblin\",\"type\":\"npc\"\x7d D AWARD_XP::\x7b\"amount\":40,\"reason\":\"win\"\x7d E AWARD_ITEM::\x7b".toList
def c1s1 : List Char := "Intro.  A PLAYER_STATUS_UPDATE::\x7b\"statuses\":[\"Poisoned\"]\x7d B DICE_ROLL_REQUEST::\x7b\"id\":\"r1\",\"statsToRoll\":[\"Strength\"],\"description\":\"Push\"\x7d C FOCUS_PANEL_UPDATE::\x7b\"name\":\"Goblin\",\"type\":\"npc\"\x7d D AWARD_XP::\x7b\"amount\":40,\"reason\":\"win\"\x7d E AWARD_ITEM::\x7b".toList
def c1r2 : List Char := " B DICE_ROLL_REQUEST::\x7b\"id\":\"r1\",\"statsToRoll\":[\"Strength\"],\"description\":\"Push\"\x7d C FOCUS_PANEL_UPDATE::\x7b\"name\":\"Goblin\",\"type\":\"npc\"\x7d D AWARD_XP::\x7b\"amount\":40,\"reason\":\"win\"\x7d E AWARD_ITEM::\x7b".toList
def c1s2 : List Char := "Intro.  A  B DICE_ROLL_REQUEST::\x7b\"id\":\"r1\",\"statsToRoll\":[\"Strength\"],\"description\":\"Push\"\x7d C FOCUS_PANEL_UPDATE::\x7b\"name\":\"Goblin\",\"type\":\"npc\"\x7d D AWARD_XP::\x7b\"amount\":40,\"reason\":\"win\"\x7d E AWARD_ITEM::\x7b".toList
def c1r3 : List Char := " C FOCUS_PANEL_UPDATE::\x7b\"name\":\"Goblin\",\"type\":\"npc\"\x7d D AWARD_XP::\x7b\"amount\":40,\"reason\":\"win\"\x7d E AWARD_ITEM::\x7b".toList
def c1s3 : List Char := "Intro.  A  B  C FOCUS_PANEL_UPDATE::\x7b\"name\":\"Goblin\",\"type\":\"npc\"\x7d D AWARD_XP::\x7b\"amount\":40,\"reason\":\"win\"\x7d E AWARD_ITEM::\x7b".toList
def c1r4 : List Char := " D AWARD_XP::\x7b\"amount\":40,\"reason\":\"win\"\x7d E AWARD_ITEM::\x7b".toList
def c1s4 : List Char := "Intro.  A  B  C  D AWARD_XP::\x7b\"amount\":40,\"reason\":\"win\"\x7d E AWARD_ITEM::\x7b".toList
def c1r5 : List Char := " E AWARD_ITEM::\x7b".toList
def c1s5 : List Char := "Intro.  A  B  C  D  E AWARD_ITEM::\x7b".toList
def c1n6 : List Char := "Intro.  A  B  C  D  E ".toList
def c1tail : List Char := " F CONSUME_ITEM::\x7b\"name\":\"Bread\",\"quantity\":1\x7d G LEVEL_UP_INITIATE::\x7b\"reason\":\"milestone\"\x7d End.".toList
def c1t6 : List Char := "Intro.  A  B  C  D  E  F CONSUME_ITEM::\x7b\"name\":\"Bread\",\"quantity\":1\x7d G LEVEL_UP_INITIATE::\x7b\"reason\":\"milestone\"\x7d End.".toList
def c1t7 : List Char := "Intro.  A  B  C  D  E  F  G LEVEL_UP_INITIATE::\x7b\"reason\":\"milestone\"\x7d End.".toList
def c1t8 : List Char := "Intro.  A  B  C  D  E  F  G  End.".toList
def c1hpBody : List Char := "\"hp\":7,\"maxHp\":25".toList
def c1stBody : List Char := "\"statuses\":[\"Poisoned\"]".toList
def c1diceBody : List Char := "\"id\":\"r1\",\"statsToRoll\":[\"Strength\"],\"description\":\"Push\"".toList
def c1focusBody : List Char := "\"name\":\"Goblin\",\"type\":\"npc\"".toList
def c1xpBody : List Char := "\"amount\":40,\"reason\":\"win\"".toList

/-- A result record that carries a snapshot untouched with a given text:
what `initResult` produces once `cleanPotentialUndefined` is the identity. -/
def snapResult (snap : Snapshot) (t : List Char) : ProcessedResult :=
  { cleanedText := t
    newHp := snap.hp
    newMaxHp := snap.maxHp
    newStatuses := snap.statuses
    newFocusTargetInfo := snap.focusTargetInfo
    newDiceRollRequest := none
    xpAward := none
    levelUpInitiateReason := none
    itemAward := none
    itemConsumed := none
    newInventory := snap.inventory
    newCurrentXP := snap.currentXP }

/-- C1.  On a finalized turn text carrying all eight commands where exactly
one — the `AWARD_ITEM` payload `b` — is malformed JSON, reconciliation
applies the effects of the seven well-formed commands, ignores the
malformed one (`itemAward = none`, inventory only changed by the consume
command), still strips the malformed sigil+payload span from the cleaned
display text, and, being a total function, never throws. -/
theorem malformed_payload_containment (b : List Char) (snap : Snapshot) (now : Int)
    (hb1 : '}' ∉ b) (hb2 : parsePayload b = none) :
    updateStateAndParseCommands now (c1pre ++ (b ++ c1post)) snap =
      { cleanedText := c1t8
        newHp := 7
        newMaxHp := 25
        newStatuses := [Json.str "Poisoned".toList]
        newFocusTargetInfo := some (Json.obj
          [("name".toList, Json.str "Goblin".toList),
           ("type".toList, Json.str "npc".toList)])
        newDiceRollRequest := some
          { id := "r1".toList, statsToRoll := [StatName.Strength],
            description := "Push".toList }
        xpAward := some (40, "win".toList)
        levelUpInitiateReason := some "milestone".toList
        itemAward := none
        itemConsumed := some ("Bread".toList, 1)
        newInventory := applyConsumeItem snap.inventory "Bread".toList 1
        newCurrentXP := snap.currentXP + 40 } := by
  have hlast0 : (c1pre ++ (b ++ c1post)).getLast? = some '.' := by
    rw [getLast?_append_right _ _ (append_ne_nil_right _ _ (by decide)),
      getLast?_append_right _ _ (by decide)]
    rfl
  have hhead0 : (c1pre ++ (b ++ c1post)).head? = some 'I' := by
    rw [head?_append_left _ _ (by decide)]
    rfl
  have h0 : cleanPotentialUndefined (c1pre ++ (b ++ c1post)) = c1pre ++ (b ++ c1post) := by
    unfold cleanPotentialUndefined
    have hends : pfx undefinedChars.reverse (c1pre ++ (b ++ c1post)).reverse = false := by
      have hsh : undefinedChars.reverse = 'd' :: "enifednu".toList := by decide
      rw [hsh]
      apply pfx_head_ne 'd' _ _ '.'
      · rw [List.head?_reverse]
        exact hlast0
      · decide
    rw [if_neg (by rw [hends]; simp)]
    exact jsTrim_eq_self _ 'I' '.' hhead0 (by decide) hlast0 (by decide)
  have hinit : initResult (c1pre ++ (b ++ c1post)) snap =
      snapResult snap (c1pre ++ (b ++ c1post)) := by
    unfold initResult snapResult
    rw [h0]
  have find1 : scanFirst (tryCmd hpSig) (c1pre ++ (b ++ c1post)) =
      some ("Intro. ".toList, c1hpBody, c1r1 ++ (b ++ c1post)) := rfl
  have trim1 : jsTrim ("Intro. ".toList ++ (c1r1 ++ (b ++ c1post))) =
      c1s1 ++ (b ++ c1post) := by
    rw [jsTrim_concat3 "Intro. ".toList c1r1 b c1post 'I' '.' rfl (by decide) rfl (by decide)]
    rfl
  have step1 : stageHp
      (snapResult snap (c1pre ++ (b ++ c1post))) =
      ({ snapResult snap (c1s1 ++ (b ++ c1post)) with
         newHp := 7
         newMaxHp := 25 }) := by
    unfold stageHp
    rw [runStage_found (scanFirst (tryCmd hpSig)) applyHpCmd
      (snapResult snap (c1pre ++ (b ++ c1post)))
      "Intro. ".toList c1hpBody (c1r1 ++ (b ++ c1post)) find1]
    rw [trim1]
    rfl
  have find2 : scanFirst (tryCmd statusSig) (c1s1 ++ (b ++ c1post)) =
      some ("Intro.  A ".toList, c1stBody, c1r2 ++ (b ++ c1post)) := rfl
  have trim2 : jsTrim ("Intro.  A ".toList ++ (c1r2 ++ (b ++ c1post))) =
      c1s2 ++ (b ++ c1post) := by
    rw [jsTrim_concat3 "Intro.  A ".toList c1r2 b c1post 'I' '.' rfl (by decide) rfl (by decide)]
    rfl
  have step2 : stageStatus
      ({ snapResult snap (c1s1 ++ (b ++ c1post)) with
         newHp := 7
         newMaxHp := 25 }) =
      ({ snapResult snap (c1s2 ++ (b ++ c1post)) with
         newHp := 7
         newMaxHp := 25
         newStatuses := [Json.str "Poisoned".toList] }) := by
    unfold stageStatus
    rw [runStage_found (scanFirst (tryCmd statusSig)) applyStatusCmd
      ({ snapResult snap (c1s1 ++ (b ++ c1post)) with
         newHp := 7
         newMaxHp := 25 })
      "Intro.  A ".toList c1stBody (c1r2 ++ (b ++ c1post)) find2]
    rw [trim2]
    rfl
  have find3 : scanFirst (tryCmd diceSig) (c1s2 ++ (b ++ c1post)) =
      some ("Intro.  A  B ".toList, c1diceBody, c1r3 ++ (b ++ c1post)) := rfl
  have trim3 : jsTrim ("Intro.  A  B ".toList ++ (c1r3 ++ (b ++ c1post))) =
      c1s3 ++ (b ++ c1post) := by
    rw [jsTrim_concat3 "Intro.  A  B ".toList c1r3 b c1post 'I' '.' rfl (by decide) rfl (by decide)]
    rfl
  have step3 : stageDice
      ({ snapResult snap (c1s2 ++ (b ++ c1post)) with
         newHp := 7
         newMaxHp := 25
         newStatuses := [Json.str "Poisoned".toList] }) =
      ({ snapResult snap (c1s3 ++ (b ++ c1post)) with
         newHp := 7
         newMaxHp := 25
         newStatuses := [Json.str "Poisoned".toList]
         newDiceRollRequest := some { id := "r1".toList, statsToRoll := [StatName.Strength], description := "Push".toList } }) := by
    unfold stageDice
    rw [runStage_found (scanFirst (tryCmd diceSig)) applyDiceCmd
      ({ snapResult snap (c1s2 ++ (b ++ c1post)) with
         newHp := 7
         newMaxHp := 25
         newStatuses := [Json.str "Poisoned".toList] })
      "Intro.  A  B ".toList c1diceBody (c1r3 ++ (b ++ c1post)) find3]
    rw [trim3]
    rfl
  have find4 : scanFirst (tryFocus focusSig) (c1s3 ++ (b ++ c1post)) =
      some ("Intro.  A  B  C ".toList, some c1focusBody, c1r4 ++ (b ++ c1post)) := rfl
  have trim4 : jsTrim ("Intro.  A  B  C ".toList ++ (c1r4 ++ (b ++ c1post))) =
      c1s4 ++ (b ++ c1post) := by
    rw [jsTrim_concat3 "Intro.  A  B  C ".toList c1r4 b c1post 'I' '.' rfl (by decide) rfl (by decide)]
    rfl
  have step4 : stageFocus
      ({ snapResult snap (c1s3 ++ (b ++ c1post)) with
         newHp := 7
         newMaxHp := 25
         newStatuses := [Json.str "Poisoned".toList]
         newDiceRollRequest := some { id := "r1".toList, statsToRoll := [StatName.Strength], description := "Push".toList } }) =
      ({ snapResult snap (c1s4 ++ (b ++ c1post)) with
         newHp := 7
         newMaxHp := 25
         newStatuses := [Json.str "Poisoned".toList]
         newDiceRollRequest := some { id := "r1".toList, statsToRoll := [StatName.Strength], description := "Push".toList }
         newFocusTargetInfo := some (Json.obj
                 [("name".toList, Json.str "Goblin".toList),
                  ("type".toList, Json.str "npc".toList)]) }) := by
    unfold stageFocus
    rw [runStage_found (scanFirst (tryFocus focusSig)) applyFocusCmd
      ({ snapResult snap (c1s3 ++ (b ++ c1post)) with
         newHp := 7
         newMaxHp := 25
         newStatuses := [Json.str "Poisoned".toList]
         newDiceRollRequest := some { id := "r1".toList, statsToRoll := [StatName.Strength], description := "Push".toList } })
      "Intro.  A  B  C ".toList (some c1focusBody) (c1r4 ++ (b ++ c1post)) find4]
    rw [trim4]
    rfl
  have find5 : scanFirst (tryCmd xpSig) (c1s4 ++ (b ++ c1post)) =
      some ("Intro.  A  B  C  D ".toList, c1xpBody, c1r5 ++ (b ++ c1post)) := rfl
  have trim5 : jsTrim ("Intro.  A  B  C  D ".toList ++ (c1r5 ++ (b ++ c1post))) =
      c1s5 ++ (b ++ c1post) := by
    rw [jsTrim_concat3 "Intro.  A  B  C  D ".toList c1r5 b c1post 'I' '.' rfl (by decide) rfl (by decide)]
    rfl
  have step5 : stageXp
      ({ snapResult snap (c1s4 ++ (b ++ c1post)) with
         newHp := 7
         newMaxHp := 25
         newStatuses := [Json.str "Poisoned".toList]
         newDiceRollRequest := some { id := "r1".toList, statsToRoll := [StatName.Strength], description := "Push".toList }
         newFocusTargetInfo := some (Json.obj
                 [("name".toList, Json.str "Goblin".toList),
                  ("type".toList, Json.str "npc".toList)]) }) =
      ({ snapResult snap (c1s5 ++ (b ++ c1post)) with
         newHp := 7
         newMaxHp := 25
         newStatuses := [Json.str "Poisoned".toList]
         newDiceRollRequest := some { id := "r1".toList, statsToRoll := [StatName.Strength], description := "Push".toList }
         newFocusTargetInfo := some (Json.obj
                 [("name".toList, Json.str "Goblin".toList),
                  ("type".toList, Json.str "npc".toList)])
         xpAward := some (40, "win".toList)
         newCurrentXP := snap.currentXP + 40 }) := by
    unfold stageXp
    rw [runStage_found (scanFirst (tryCmd xpSig)) applyXpCmd
      ({ snapResult snap (c1s4 ++ (b ++ c1post)) with
         newHp := 7
         newMaxHp := 25
         newStatuses := [Json.str "Poisoned".toList]
         newDiceRollRequest := some { id := "r1".toList, statsToRoll := [StatName.Strength], description := "Push".toList }
         newFocusTargetInfo := some (Json.obj
                 [("name".toList, Json.str "Goblin".toList),
                  ("type".toList, Json.str "npc".toList)]) })
      "Intro.  A  B  C  D ".toList c1xpBody (c1r5 ++ (b ++ c1post)) find5]
    rw [trim5]
    rfl
  have hNoMatch : NoMatchAt (awardSig ++ ['\x7b']) c1n6
      (awardSig ++ '\x7b' :: (b ++ '\x7d' :: c1tail)) :=
    noMatchAt_of_safeBefore _ _ (by decide) _
  have find6 : scanFirst (tryCmd awardSig) (c1s5 ++ (b ++ c1post)) =
      some (c1n6, b, c1tail) := by
    have hshape : c1s5 ++ (b ++ c1post) =
        c1n6 ++ (awardSig ++ '\x7b' :: (b ++ '\x7d' :: c1tail)) := rfl
    rw [hshape]
    rw [scanFirst_append (tryCmd awardSig) c1n6 (awardSig ++ '\x7b' :: (b ++ '\x7d' :: c1tail))
      (fun t ht hne => tryCmd_none_of_pfx_false awardSig _ (hNoMatch t ht hne))]
    rw [scanFirst_pos (tryCmd awardSig) _ b c1tail
      (append_ne_nil_left _ _ (by decide))
      (tryCmd_match awardSig b c1tail hb1)]
    simp
  have step6 : stageAward now
      ({ snapResult snap (c1s5 ++ (b ++ c1post)) with
         newHp := 7
         newMaxHp := 25
         newStatuses := [Json.str "Poisoned".toList]
         newDiceRollRequest := some { id := "r1".toList, statsToRoll := [StatName.Strength], description := "Push".toList }
         newFocusTargetInfo := some (Json.obj
                 [("name".toList, Json.str "Goblin".toList),
                  ("type".toList, Json.str "npc".toList)])
         xpAward := some (40, "win".toList)
         newCurrentXP := snap.currentXP + 40 }) =
      ({ snapResult snap c1t6 with
         newHp := 7
         newMaxHp := 25
         newStatuses := [Json.str "Poisoned".toList]
         newDiceRollRequest := some { id := "r1".toList, statsToRoll := [StatName.Strength], description := "Push".toList }
         newFocusTargetInfo := some (Json.obj
                 [("name".toList, Json.str "Goblin".toList),
                  ("type".toList, Json.str "npc".toList)])
         xpAward := some (40, "win".toList)
         newCurrentXP := snap.currentXP + 40 }) := by
    unfold stageAward
    rw [runStage_found (scanFirst (tryCmd awardSig)) (applyAwardCmd now)
      ({ snapResult snap (c1s5 ++ (b ++ c1post)) with
         newHp := 7
         newMaxHp := 25
         newStatuses := [Json.str "Poisoned".toList]
         newDiceRollRequest := some { id := "r1".toList, statsToRoll := [StatName.Strength], description := "Push".toList }
         newFocusTargetInfo := some (Json.obj
                 [("name".toList, Json.str "Goblin".toList),
                  ("type".toList, Json.str "npc".toList)])
         xpAward := some (40, "win".toList)
         newCurrentXP := snap.currentXP + 40 })
      c1n6 b c1tail find6]
    have happ : applyAwardCmd now b
        ({ snapResult snap (c1s5 ++ (b ++ c1post)) with
           newHp := 7
           newMaxHp := 25
           newStatuses := [Json.str "Poisoned".toList]
           newDiceRollRequest := some { id := "r1".toList, statsToRoll := [StatName.Strength], description := "Push".toList }
           newFocusTargetInfo := some (Json.obj
                   [("name".toList, Json.str "Goblin".toList),
                    ("type".toList, Json.str "npc".toList)])
           xpAward := some (40, "win".toList)
           newCurrentXP := snap.currentXP + 40 }) =
        ({ snapResult snap (c1s5 ++ (b ++ c1post)) with
           newHp := 7
           newMaxHp := 25
           newStatuses := [Json.str "Poisoned".toList]
           newDiceRollRequest := some { id := "r1".toList, statsToRoll := [StatName.Strength], description := "Push".toList }
           newFocusTargetInfo := some (Json.obj
                   [("name".toList, Json.str "Goblin".toList),
                    ("type".toList, Json.str "npc".toList)])
           xpAward := some (40, "win".toList)
           newCurrentXP := snap.currentXP + 40 }) := by
      unfold applyAwardCmd
      rw [hb2]
    rw [happ]
    rfl
  have step7 : stageConsume
      ({ snapResult snap c1t6 with
         newHp := 7
         newMaxHp := 25
         newStatuses := [Json.str "Poisoned".toList]
         newDiceRollRequest := some { id := "r1".toList, statsToRoll := [StatName.Strength], description := "Push".toList }
         newFocusTargetInfo := some (Json.obj
                 [("name".toList, Json.str "Goblin".toList),
                  ("type".toList, Json.str "npc".toList)])
         xpAward := some (40, "win".toList)
         newCurrentXP := snap.currentXP + 40 }) =
      ({ snapResult snap c1t7 with
         newHp := 7
         newMaxHp := 25
         newStatuses := [Json.str "Poisoned".toList]
         newDiceRollRequest := some { id := "r1".toList, statsToRoll := [StatName.Strength], description := "Push".toList }
         newFocusTargetInfo := some (Json.obj
                 [("name".toList, Json.str "Goblin".toList),
                  ("type".toList, Json.str "npc".toList)])
         xpAward := some (40, "win".toList)
         newCurrentXP := snap.currentXP + 40
         itemConsumed := some ("Bread".toList, 1)
         newInventory := applyConsumeItem snap.inventory "Bread".toList 1 }) := rfl
  have step8 : stageLvl
      ({ snapResult snap c1t7 with
         newHp := 7
         newMaxHp := 25
         newStatuses := [Json.str "Poisoned".toList]
         newDiceRollRequest := some { id := "r1".toList, statsToRoll := [StatName.Strength], description := "Push".toList }
         newFocusTargetInfo := some (Json.obj
                 [("name".toList, Json.str "Goblin".toList),
                  ("type".toList, Json.str "npc".toList)])
         xpAward := some (40, "win".toList)
         newCurrentXP := snap.currentXP + 40
         itemConsumed := some ("Bread".toList, 1)
         newInventory := applyConsumeItem snap.inventory "Bread".toList 1 }) =
      ({ snapResult snap c1t8 with
         newHp := 7
         newMaxHp := 25
         newStatuses := [Json.str "Poisoned".toList]
         newDiceRollRequest := some { id := "r1".toList, statsToRoll := [StatName.Strength], description := "Push".toList }
         newFocusTargetInfo := some (Json.obj
                 [("name".toList, Json.str "Goblin".toList),
                  ("type".toList, Json.str "npc".toList)])
         xpAward := some (40, "win".toList)
         newCurrentXP := snap.currentXP + 40
         itemConsumed := some ("Bread".toList, 1)
         newInventory := applyConsumeItem snap.inventory "Bread".toList 1
         levelUpInitiateReason := some "milestone".toList }) := rfl
  unfold updateStateAndParseCommands
  rw [hinit, step1, step2, step3, step4, step5, step6, step7, step8]
  rfl



/-- Witness for C1: the concrete malformed body `oops`, a snapshot holding
three loaves of bread and 10 XP. -/
theorem malformed_payload_containment_witness :
    updateStateAndParseCommands 0 (c1pre ++ ("oops".toList ++ c1post))
      { hp := 12, maxHp := 20, statuses := [], focusTargetInfo := none
        diceRollRequest := none
        inventory := [{ id := "i1".toList, name := "Bread".toList,
                        description := "d".toList, type := ItemType.food, quantity := 3 }]
        currentXP := 10 } =
      { cleanedText := c1t8
        newHp := 7
        newMaxHp := 25
        newStatuses := [Json.str "Poisoned".toList]
        newFocusTargetInfo := some (Json.obj
          [("name".toList, Json.str "Goblin".toList),
           ("type".toList, Json.str "npc".toList)])
        newDiceRollRequest := some
          { id := "r1".toList, statsToRoll := [StatName.Strength],
            description := "Push".toList }
        xpAward := some (40, "win".toList)
        levelUpInitiateReason := some "milestone".toList
        itemAward := none
        itemConsumed := some ("Bread".toList, 1)
        newInventory := applyConsumeItem
          (Snapshot.inventory
            { hp := 12, maxHp := 20, statuses := [], focusTargetInfo := none
              diceRollRequest := none
              inventory := [{ id := "i1".toList, name := "Bread".toList,
                              description := "d".toList, type := ItemType.food,
                              quantity := 3 }]
              currentXP := 10 }) "Bread".toList 1
        newCurrentXP := Snapshot.currentXP
          { hp := 12, maxHp := 20, statuses := [], focusTargetInfo := none
            diceRollRequest := none
            inventory := [{ id := "i1".toList, name := "Bread".toList,
                            description := "d".toList, type := ItemType.food,
                            quantity := 3 }]
            currentXP := 10 } + 40 } :=
  malformed_payload_containment "oops".toList
    { hp := 12, maxHp := 20, statuses := [], focusTargetInfo := none
      diceRollRequest := none
      inventory := [{ id := "i1".toList, name := "Bread".toList,
                      description := "d".toList, type := ItemType.food, quantity := 3 }]
      currentXP := 10 } 0 (by decide) rfl


/-! ### C10: only the first occurrence of a sigil is parsed

The command regexes carry no global flag, so `match` finds and `replace`
strips only the first occurrence.  The scenario text carries two `AWARD_ITEM`
commands with payload bodies `b1` and `b2` and no other command sigils. -/

def c10x : List Char := "Story AWARD_ITEM::\x7b".toList
def c10m : List Char := "\x7d mid AWARD_ITEM::\x7b".toList
def c10y : List Char := "\x7d tale.".toList
def c10mid : List Char := " mid AWARD_ITEM::\x7b".toList
def c10s : List Char := "Story  mid AWARD_ITEM::\x7b".toList

/-- The patterns of the seven other commands (sigil plus opening brace; the
focus command scans on its sigil alone because of the `null` alternative). -/
def c10pats : List (List Char) :=
  [hpSig ++ ['\x7b'], statusSig ++ ['\x7b'], diceSig ++ ['\x7b'], focusSig,
   xpSig ++ ['\x7b'], consumeSig ++ ['\x7b'], lvlSig ++ ['\x7b']]

theorem c10_noPfx_full (pat b1 b2 : List Char)
    (h1 : occursB pat b1 = false) (h2 : occursB pat b2 = false)
    (hsx : safeBefore pat c10x = true) (hsm : safeBefore pat c10m = true)
    (hsy : noPfxSuffixB pat c10y = true) (hbr : '\x7d' ∉ pat) :
    NoPfxSuffix pat (c10x ++ (b1 ++ (c10m ++ (b2 ++ c10y)))) := by
  refine noPfxSuffix_append _ _ _ (noMatchAt_of_safeBefore _ _ hsx _) ?_
  refine noPfxSuffix_append _ _ _ (noMatchAt_sym pat b1 _ '\x7d' h1 ?_ hbr) ?_
  · rw [head?_append_left _ _ (by decide)]
    rfl
  refine noPfxSuffix_append _ _ _ (noMatchAt_of_safeBefore _ _ hsm _) ?_
  refine noPfxSuffix_append _ _ _ (noMatchAt_sym pat b2 _ '\x7d' h2 rfl hbr) ?_
  exact noPfxSuffix_of_noPfxSuffixB _ _ hsy

theorem c10_noPfx_tail (pat b2 : List Char)
    (h2 : occursB pat b2 = false)
    (hss : safeBefore pat c10s = true) (hsy : noPfxSuffixB pat c10y = true)
    (hbr : '\x7d' ∉ pat) :
    NoPfxSuffix pat (c10s ++ (b2 ++ c10y)) := by
  refine noPfxSuffix_append _ _ _ (noMatchAt_of_safeBefore _ _ hss _) ?_
  refine noPfxSuffix_append _ _ _ (noMatchAt_sym pat b2 _ '\x7d' h2 rfl hbr) ?_
  exact noPfxSuffix_of_noPfxSuffixB _ _ hsy

/-- C10.  With two syntactically well-formed `AWARD_ITEM` commands in one
turn text (payload bodies `b1`, `b2`, both parseable JSON and free of other
command sigils), only the first is applied and stripped: the resulting state
is exactly the application of `b1`'s payload, and the cleaned text still
contains the full second command span `AWARD_ITEM::{b2}`. -/
theorem second_command_ignored (b1 b2 : List Char) (snap : Snapshot) (now : Int)
    (hb1 : '\x7d' ∉ b1)
    (_hwf1 : (parsePayload b1).isSome = true)
    (_hwf2 : (parsePayload b2).isSome = true)
    (hocc1 : ∀ p ∈ c10pats, occursB p b1 = false)
    (hocc2 : ∀ p ∈ c10pats, occursB p b2 = false) :
    updateStateAndParseCommands now (c10x ++ (b1 ++ (c10m ++ (b2 ++ c10y)))) snap =
      { applyAwardCmd now b1
          (snapResult snap (c10x ++ (b1 ++ (c10m ++ (b2 ++ c10y))))) with
        cleanedText := c10s ++ (b2 ++ c10y) } := by
  have hlast0 : (c10x ++ (b1 ++ (c10m ++ (b2 ++ c10y)))).getLast? = some '.' := by
    rw [getLast?_append_right _ _ (append_ne_nil_right _ _ (append_ne_nil_right _ _
        (append_ne_nil_right _ _ (by decide)))),
      getLast?_append_right _ _ (append_ne_nil_right _ _ (append_ne_nil_right _ _
        (by decide))),
      getLast?_append_right _ _ (append_ne_nil_right _ _ (by decide)),
      getLast?_append_right _ _ (by decide)]
    rfl
  have hhead0 : (c10x ++ (b1 ++ (c10m ++ (b2 ++ c10y)))).head? = some 'S' := by
    rw [head?_append_left _ _ (by decide)]
    rfl
  have h0 : cleanPotentialUndefined (c10x ++ (b1 ++ (c10m ++ (b2 ++ c10y)))) =
      c10x ++ (b1 ++ (c10m ++ (b2 ++ c10y))) := by
    unfold cleanPotentialUndefined
    have hends : pfx undefinedChars.reverse
        (c10x ++ (b1 ++ (c10m ++ (b2 ++ c10y)))).reverse = false := by
      have hsh : undefinedChars.reverse = 'd' :: "enifednu".toList := by decide
      rw [hsh]
      apply pfx_head_ne 'd' _ _ '.'
      · rw [List.head?_reverse]
        exact hlast0
      · decide
    rw [if_neg (by rw [hends]; simp)]
    exact jsTrim_eq_self _ 'S' '.' hhead0 (by decide) hlast0 (by decide)
  have hinit : initResult (c10x ++ (b1 ++ (c10m ++ (b2 ++ c10y)))) snap =
      snapResult snap (c10x ++ (b1 ++ (c10m ++ (b2 ++ c10y)))) := by
    unfold initResult snapResult
    rw [h0]
  have hn1 : scanFirst (tryCmd hpSig) (c10x ++ (b1 ++ (c10m ++ (b2 ++ c10y)))) = none :=
    scanFirst_none _ _ (fun t ht hne => tryCmd_none_of_pfx_false _ _
      (c10_noPfx_full (hpSig ++ ['\x7b']) b1 b2 (hocc1 _ (by decide)) (hocc2 _ (by decide))
        (by decide) (by decide) (by decide) (by decide) t ht hne))
  have hn2 : scanFirst (tryCmd statusSig) (c10x ++ (b1 ++ (c10m ++ (b2 ++ c10y)))) = none :=
    scanFirst_none _ _ (fun t ht hne => tryCmd_none_of_pfx_false _ _
      (c10_noPfx_full (statusSig ++ ['\x7b']) b1 b2 (hocc1 _ (by decide)) (hocc2 _ (by decide))
        (by decide) (by decide) (by decide) (by decide) t ht hne))
  have hn3 : scanFirst (tryCmd diceSig) (c10x ++ (b1 ++ (c10m ++ (b2 ++ c10y)))) = none :=
    scanFirst_none _ _ (fun t ht hne => tryCmd_none_of_pfx_false _ _
      (c10_noPfx_full (diceSig ++ ['\x7b']) b1 b2 (hocc1 _ (by decide)) (hocc2 _ (by decide))
        (by decide) (by decide) (by decide) (by decide) t ht hne))
  have hn4 : scanFirst (tryFocus focusSig) (c10x ++ (b1 ++ (c10m ++ (b2 ++ c10y)))) = none :=
    scanFirst_none _ _ (fun t ht hne => tryFocus_none_of_pfx_false _ _
      (c10_noPfx_full focusSig b1 b2 (hocc1 _ (by decide)) (hocc2 _ (by decide))
        (by decide) (by decide) (by decide) (by decide) t ht hne))
  have hn5 : scanFirst (tryCmd xpSig) (c10x ++ (b1 ++ (c10m ++ (b2 ++ c10y)))) = none :=
    scanFirst_none _ _ (fun t ht hne => tryCmd_none_of_pfx_false _ _
      (c10_noPfx_full (xpSig ++ ['\x7b']) b1 b2 (hocc1 _ (by decide)) (hocc2 _ (by decide))
        (by decide) (by decide) (by decide) (by decide) t ht hne))
  have hn7 : scanFirst (tryCmd consumeSig) (c10s ++ (b2 ++ c10y)) = none :=
    scanFirst_none _ _ (fun t ht hne => tryCmd_none_of_pfx_false _ _
      (c10_noPfx_tail (consumeSig ++ ['\x7b']) b2 (hocc2 _ (by decide))
        (by decide) (by decide) (by decide) t ht hne))
  have hn8 : scanFirst (tryCmd lvlSig) (c10s ++ (b2 ++ c10y)) = none :=
    scanFirst_none _ _ (fun t ht hne => tryCmd_none_of_pfx_false _ _
      (c10_noPfx_tail (lvlSig ++ ['\x7b']) b2 (hocc2 _ (by decide))
        (by decide) (by decide) (by decide) t ht hne))
  have hNoMatch : NoMatchAt (awardSig ++ ['\x7b']) "Story ".toList
      (awardSig ++ '\x7b' :: (b1 ++ '\x7d' :: (c10mid ++ (b2 ++ c10y)))) :=
    noMatchAt_of_safeBefore _ _ (by decide) _
  have find6 : scanFirst (tryCmd awardSig) (c10x ++ (b1 ++ (c10m ++ (b2 ++ c10y)))) =
      some ("Story ".toList, b1, c10mid ++ (b2 ++ c10y)) := by
    have hshape : c10x ++ (b1 ++ (c10m ++ (b2 ++ c10y))) =
        "Story ".toList ++ (awardSig ++ '\x7b' :: (b1 ++ '\x7d' :: (c10mid ++ (b2 ++ c10y)))) :=
      rfl
    rw [hshape]
    rw [scanFirst_append (tryCmd awardSig) "Story ".toList
      (awardSig ++ '\x7b' :: (b1 ++ '\x7d' :: (c10mid ++ (b2 ++ c10y))))
      (fun t ht hne => tryCmd_none_of_pfx_false awardSig _ (hNoMatch t ht hne))]
    rw [scanFirst_pos (tryCmd awardSig) _ b1 (c10mid ++ (b2 ++ c10y))
      (append_ne_nil_left _ _ (by decide))
      (tryCmd_match awardSig b1 (c10mid ++ (b2 ++ c10y)) hb1)]
    simp
  have trim6 : jsTrim ("Story ".toList ++ (c10mid ++ (b2 ++ c10y))) =
      c10s ++ (b2 ++ c10y) := by
    rw [jsTrim_concat3 "Story ".toList c10mid b2 c10y 'S' '.' rfl (by decide) rfl (by decide)]
    rfl
  have hstep1 : stageHp (snapResult snap (c10x ++ (b1 ++ (c10m ++ (b2 ++ c10y))))) =
      snapResult snap (c10x ++ (b1 ++ (c10m ++ (b2 ++ c10y)))) := by
    unfold stageHp
    exact runStage_skip _ _ _ hn1
  have hstep2 : stageStatus (snapResult snap (c10x ++ (b1 ++ (c10m ++ (b2 ++ c10y))))) =
      snapResult snap (c10x ++ (b1 ++ (c10m ++ (b2 ++ c10y)))) := by
    unfold stageStatus
    exact runStage_skip _ _ _ hn2
  have hstep3 : stageDice (snapResult snap (c10x ++ (b1 ++ (c10m ++ (b2 ++ c10y))))) =
      snapResult snap (c10x ++ (b1 ++ (c10m ++ (b2 ++ c10y)))) := by
    unfold stageDice
    exact runStage_skip _ _ _ hn3
  have hstep4 : stageFocus (snapResult snap (c10x ++ (b1 ++ (c10m ++ (b2 ++ c10y))))) =
      snapResult snap (c10x ++ (b1 ++ (c10m ++ (b2 ++ c10y)))) := by
    unfold stageFocus
    exact runStage_skip _ _ _ hn4
  have hstep5 : stageXp (snapResult snap (c10x ++ (b1 ++ (c10m ++ (b2 ++ c10y))))) =
      snapResult snap (c10x ++ (b1 ++ (c10m ++ (b2 ++ c10y)))) := by
    unfold stageXp
    exact runStage_skip _ _ _ hn5
  have hstep6 : stageAward now (snapResult snap (c10x ++ (b1 ++ (c10m ++ (b2 ++ c10y))))) =
      { applyAwardCmd now b1
          (snapResult snap (c10x ++ (b1 ++ (c10m ++ (b2 ++ c10y))))) with
        cleanedText := c10s ++ (b2 ++ c10y) } := by
    unfold stageAward
    rw [runStage_found (scanFirst (tryCmd awardSig)) (applyAwardCmd now)
      (snapResult snap (c10x ++ (b1 ++ (c10m ++ (b2 ++ c10y)))))
      "Story ".toList b1 (c10mid ++ (b2 ++ c10y)) find6]
    rw [trim6]
  have hstep7 : stageConsume
      ({ applyAwardCmd now b1
           (snapResult snap (c10x ++ (b1 ++ (c10m ++ (b2 ++ c10y))))) with
         cleanedText := c10s ++ (b2 ++ c10y) }) =
      { applyAwardCmd now b1
          (snapResult snap (c10x ++ (b1 ++ (c10m ++ (b2 ++ c10y))))) with
        cleanedText := c10s ++ (b2 ++ c10y) } := by
    unfold stageConsume
    exact runStage_skip _ _ _ hn7
  have hstep8 : stageLvl
      ({ applyAwardCmd now b1
           (snapResult snap (c10x ++ (b1 ++ (c10m ++ (b2 ++ c10y))))) with
         cleanedText := c10s ++ (b2 ++ c10y) }) =
      { applyAwardCmd now b1
          (snapResult snap (c10x ++ (b1 ++ (c10m ++ (b2 ++ c10y))))) with
        cleanedText := c10s ++ (b2 ++ c10y) } := by
    unfold stageLvl
    exact runStage_skip _ _ _ hn8
  unfold updateStateAndParseCommands
  rw [hinit, hstep1, hstep2, hstep3, hstep4, hstep5, hstep6, hstep7, hstep8]

/-- Witness for C10: two well-formed axe awards; only the first is applied
and the second command text survives in the cleaned text. -/
theorem second_command_ignored_witness :
    updateStateAndParseCommands 5
      (c10x ++ ("\"name\":\"Axe\",\"description\":\"d\",\"type\":\"weapon\",\"quantity\":1".toList
        ++ (c10m ++ ("\"name\":\"Axe\",\"description\":\"d\",\"type\":\"weapon\",\"quantity\":1".toList ++ c10y))))
      { hp := 1, maxHp := 1, statuses := [], focusTargetInfo := none
        diceRollRequest := none, inventory := [], currentXP := 0 } =
      { applyAwardCmd 5
          "\"name\":\"Axe\",\"description\":\"d\",\"type\":\"weapon\",\"quantity\":1".toList
          (snapResult
            { hp := 1, maxHp := 1, statuses := [], focusTargetInfo := none
              diceRollRequest := none, inventory := [], currentXP := 0 }
            (c10x ++ ("\"name\":\"Axe\",\"description\":\"d\",\"type\":\"weapon\",\"quantity\":1".toList
              ++ (c10m ++ ("\"name\":\"Axe\",\"description\":\"d\",\"type\":\"weapon\",\"quantity\":1".toList ++ c10y))))) with
        cleanedText := c10s ++
          ("\"name\":\"Axe\",\"description\":\"d\",\"type\":\"weapon\",\"quantity\":1".toList ++ c10y) } :=
  second_command_ignored
    "\"name\":\"Axe\",\"description\":\"d\",\"type\":\"weapon\",\"quantity\":1".toList
    "\"name\":\"Axe\",\"description\":\"d\",\"type\":\"weapon\",\"quantity\":1".toList
    { hp := 1, maxHp := 1, statuses := [], focusTargetInfo := none
      diceRollRequest := none, inventory := [], currentXP := 0 } 5
    (by decide) (by decide) (by decide) (by decide) (by decide)

end AiDnd
